import Mathlib

/-!
# Verification of the rtl-haos normalization and discovery-publishing engine

This file is a shallow embedding, in Lean 4, of the stateful core of the
rtl-haos bridge:

* `src/mqtt_handler.py` : commodity inference (`infer_commodity_from_ert_type`,
  `infer_commodity_from_meter_type`, `infer_commodity_from_type_field`),
  boolean parsing (`_parse_boolish`), utility-meter metadata and value
  normalization (`HomeNodeMQTT._utility_meta_override`,
  `HomeNodeMQTT._utility_normalize_value`), the retroactive refresh
  (`HomeNodeMQTT._refresh_utility_entities_for_device`), discovery diffing
  (`HomeNodeMQTT._publish_discovery`) and the main entry point
  (`HomeNodeMQTT.send_sensor`), including the battery-low latch inlined there.
* `src/data_processor.py` : the aggregation-mode classifier
  (`_aggregation_mode`) and the flush reduction of
  `DataProcessor.start_throttle_loop`.
* `src/utils.py` : `clean_mac`.

Python values are modelled by the inductive type `Value`; Python floats are
idealized as rationals (`Rat`), with Python `round` modelled by its
round-half-to-even semantics (`pyRound2`).  Machine-float representation
issues are outside the model.  The MQTT client is modelled by an event list:
each `publish` call performed by the embedded code appends an `Event`.

The modules `config.py` and `field_meta.py` are not part of the sources
under verification; per the specification they are the stateless
"Field Classifier" and the configuration.  They are therefore modelled
abstractly by the `Cfg` structure: a record of the configuration values and
classifier functions that `mqtt_handler.py` / `data_processor.py` read.
-/

/-! ## Association lists (Python dicts, insertion ordered) -/

/-- Lookup in an insertion-ordered association list (Python `dict.get`). -/
def alistGet? {κ α : Type} [DecidableEq κ] : List (κ × α) → κ → Option α
  | [], _ => Option.none
  | (k', v) :: rest, k => if k' = k then some v else alistGet? rest k

/-- Update in an insertion-ordered association list (Python `dict.__setitem__`):
an existing key keeps its position, a fresh key is appended. -/
def alistSet {κ α : Type} [DecidableEq κ] : List (κ × α) → κ → α → List (κ × α)
  | [], k, v => [(k, v)]
  | (k', v') :: rest, k, v =>
    if k' = k then (k, v) :: rest else (k', v') :: alistSet rest k v

/-- Insert into a list used as a set (Python `set.add`). -/
def listInsert {α : Type} [DecidableEq α] (l : List α) (x : α) : List α :=
  if x ∈ l then l else x :: l

theorem alistGet?_set_self {κ α : Type} [DecidableEq κ] (m : List (κ × α)) (k : κ) (v : α) :
    alistGet? (alistSet m k v) k = some v := by
  induction m with
  | nil => simp [alistGet?, alistSet]
  | cons p rest ih =>
    by_cases h : p.1 = k
    · simp [alistSet, alistGet?, h]
    · simp [alistSet, alistGet?, h, ih]

theorem alistGet?_set_ne {κ α : Type} [DecidableEq κ] (m : List (κ × α)) (k k' : κ) (v : α)
    (h : k ≠ k') : alistGet? (alistSet m k v) k' = alistGet? m k' := by
  induction m with
  | nil => simp [alistGet?, alistSet, h]
  | cons p rest ih =>
    by_cases hp : p.1 = k
    · simp [alistSet, alistGet?, hp, h]
    · simp [alistSet, alistGet?, hp, ih]

/-! ## Python values -/

/-- A Python value as it flows through the bridge: `None`, `bool`, `int`,
`float` (idealized as a rational) or `str`. -/
inductive Value where
  | null
  | bool (b : Bool)
  | int (n : ℤ)
  | float (q : ℚ)
  | str (s : String)
deriving DecidableEq, Repr

/-- Numeric view used for Python `==`/comparisons: in Python `bool` is an
`int` subclass, so `True == 1` and numbers compare by value across
`int`/`float`. -/
def Value.toNum? : Value → Option ℚ
  | Value.bool b => some (if b then 1 else 0)
  | Value.int n => some (n : ℚ)
  | Value.float q => some q
  | _ => Option.none

/-- Python `==` on the values the bridge handles: numbers (incl. `bool`)
compare by numeric value, strings by content, `None` only to `None`,
everything else is unequal. -/
def pyEq (a b : Value) : Bool :=
  match a.toNum?, b.toNum? with
  | some x, some y => x == y
  | _, _ =>
    match a, b with
    | Value.str s, Value.str t => s == t
    | Value.null, Value.null => true
    | _, _ => false

theorem pyEq_refl (v : Value) : pyEq v v = true := by
  cases v <;> simp [pyEq, Value.toNum?]

/-- Python `isinstance(v, (int, float))` (true for `bool`, an `int` subclass). -/
def isNumLike : Value → Bool
  | Value.bool _ => true
  | Value.int _ => true
  | Value.float _ => true
  | _ => false

/-- Python `str.strip()` (list-based so that it reduces in the kernel). -/
def pyStrip (s : String) : String :=
  String.mk (((s.data.dropWhile Char.isWhitespace).reverse.dropWhile Char.isWhitespace).reverse)

/-- Python `str.lower()` on the ASCII data the bridge handles. -/
def pyLower (s : String) : String := String.mk (s.data.map Char.toLower)

/-- Python `str.startswith(p)`. -/
def strStartsWith (s p : String) : Bool := p.data.isPrefixOf s.data

/-- Fueled worker for `pyReplace`; the fuel is the input length, which always
suffices since every step consumes at least one character. -/
def replaceGo (pat rep : List Char) : ℕ → List Char → List Char
  | _, [] => []
  | 0, l => l
  | fuel + 1, c :: rest =>
    if pat ≠ [] ∧ pat.isPrefixOf (c :: rest) then
      rep ++ replaceGo pat rep fuel (List.drop (pat.length - 1) rest)
    else c :: replaceGo pat rep fuel rest

/-- Python `str.replace(pat, rep)` for a non-empty pattern: replace
non-overlapping occurrences left to right. -/
def pyReplace (s pat rep : String) : String :=
  String.mk (replaceGo pat.data rep.data s.data.length s.data)

/-- Parse a plain run of decimal digits (at least one). -/
def parseDigits? (l : List Char) : Option ℕ :=
  if l ≠ [] ∧ l.all Char.isDigit then
    some (l.foldl (fun n c => n * 10 + (c.toNat - 48)) 0)
  else Option.none

/-- Core of Python `float(...)` on a simple decimal literal
(`digits`, `digits.digits`, `digits.`, `.digits`).  Exponents, `inf`, `nan`
and underscore separators are not modelled; they do not arise in any claim. -/
def parseFloatCore? (l : List Char) : Option ℚ :=
  let ip := l.takeWhile (fun c => c ≠ '.')
  let rest := l.dropWhile (fun c => c ≠ '.')
  match rest with
  | [] => (parseDigits? ip).map (fun n => (n : ℚ))
  | _ :: frac =>
    if ip.all Char.isDigit ∧ frac.all Char.isDigit ∧ (ip ≠ [] ∨ frac ≠ []) then
      some ((ip.foldl (fun n c => n * 10 + (c.toNat - 48)) 0 : ℕ)
        + ((frac.foldl (fun n c => n * 10 + (c.toNat - 48)) 0 : ℕ) : ℚ)
          / ((10 : ℚ) ^ frac.length))
    else Option.none

/-- Optional sign, then a core parser, after Python's whitespace strip. -/
def parseSigned? (f : List Char → Option ℚ) (s : String) : Option ℚ :=
  match (pyStrip s).data with
  | '-' :: rest => (f rest).map (fun q => -q)
  | '+' :: rest => f rest
  | l => f l

/-- Python `int(...)` truncation toward zero for floats (`Rat.floor` is the
computable floor; `rat_floor_eq_intFloor` below identifies it with `⌊⌋`). -/
def ratTrunc (q : ℚ) : ℤ := if q < 0 then -(Rat.floor (-q)) else Rat.floor q

/-- Python `int(value)` on the values the bridge handles; `Option.none`
models `TypeError`/`ValueError`. -/
def Value.toIntPy? : Value → Option ℤ
  | Value.bool b => some (if b then 1 else 0)
  | Value.int n => some n
  | Value.float q => some (ratTrunc q)
  | Value.str s =>
    (parseSigned? (fun l => (parseDigits? l).map (fun n => (n : ℚ))) s).map Rat.num
  | Value.null => Option.none

/-- Python `float(value)`; `Option.none` models `TypeError`/`ValueError`. -/
def Value.toFloat? : Value → Option ℚ
  | Value.bool b => some (if b then 1 else 0)
  | Value.int n => some (n : ℚ)
  | Value.float q => some q
  | Value.str s => parseSigned? parseFloatCore? s
  | Value.null => Option.none

/-- Python `round(x, 2)` on the idealized rationals: round half to even at
two decimal places. -/
def pyRoundInt (x : ℚ) : ℤ :=
  if x - Rat.floor x < 1/2 then Rat.floor x
  else if 1/2 < x - Rat.floor x then Rat.floor x + 1
  else if Rat.floor x % 2 = 0 then Rat.floor x else Rat.floor x + 1

def pyRound2 (x : ℚ) : ℚ := ((pyRoundInt (x * 100) : ℤ) : ℚ) / 100

/-- Worker for `containsSub`: does `pat` occur in the list? -/
def listContainsSub (pat : List Char) : List Char → Bool
  | [] => pat == []
  | c :: rest => pat.isPrefixOf (c :: rest) || listContainsSub pat rest

/-- Python `sub in s` (substring test). -/
def containsSub (s pat : String) : Bool := listContainsSub pat.data s.data

/-- Python `str.title()` restricted to what the bridge feeds it (ASCII field
names): the first letter of each letter-run is uppercased, the rest
lowercased. -/
def pyTitle (s : String) : String :=
  String.mk ((s.data.foldl
    (fun (acc : List Char × Bool) c =>
      if c.isAlpha then
        (acc.1 ++ [if acc.2 then c.toLower else c.toUpper], true)
      else (acc.1 ++ [c], false))
    ([], false)).1)

/-! ## utils.clean_mac -/

/-- The character class of the regex `[^A-Za-z0-9]` in `utils.clean_mac`. -/
def asciiAlnumChars : List Char :=
  "ABCDEFGHIJKLMNOPQRSTUVWXYZabcdefghijklmnopqrstuvwxyz0123456789".data

def isAsciiAlnum (c : Char) : Bool := asciiAlnumChars.contains c

/-- Lowercase ASCII letters and digits: the character set of `clean_mac`'s
output (claim C10's "lowercase ASCII letters and digits"). -/
def isLowerAlnum (c : Char) : Bool :=
  ("abcdefghijklmnopqrstuvwxyz0123456789".data).contains c

/-- `utils.clean_mac`: strip every character outside `[A-Za-z0-9]`, lowercase
the rest; an empty result becomes `"unknown"`.  The Python function first
applies `str(...)`; since `str` of any value is some string, the model
quantifies over the already-stringified input. -/
def clean_mac (mac : String) : String :=
  let cleaned := String.mk (mac.data.filter isAsciiAlnum)
  if cleaned = "" then "unknown" else String.mk (cleaned.data.map Char.toLower)

/-! ## Commodity inference (mqtt_handler.py, module level) -/

inductive Commodity where
  | electric
  | gas
  | water
deriving DecidableEq, Repr

/-- `infer_commodity_from_ert_type`: numeric ERT type codes, via the
`ERT_TYPE_COMMODITY` table (electric {4,5,7,8}, gas {0,1,2,9,12},
water {3,11,13}). -/
def infer_commodity_from_ert_type (v : Value) : Option Commodity :=
  match v.toIntPy? with
  | Option.none => Option.none
  | some t =>
    if t = 4 ∨ t = 5 ∨ t = 7 ∨ t = 8 then some Commodity.electric
    else if t = 0 ∨ t = 1 ∨ t = 2 ∨ t = 9 ∨ t = 12 then some Commodity.gas
    else if t = 3 ∨ t = 11 ∨ t = 13 then some Commodity.water
    else Option.none

/-- `infer_commodity_from_meter_type`: textual MeterType values only. -/
def infer_commodity_from_meter_type (v : Value) : Option Commodity :=
  match v with
  | Value.str s =>
    let t := pyLower (pyStrip s)
    if t = "electric" ∨ t = "electricity" ∨ t = "energy" ∨ t = "power" then
      some Commodity.electric
    else if t = "gas" ∨ t = "natural gas" then some Commodity.gas
    else if t = "water" then some Commodity.water
    else Option.none
  | _ => Option.none

/-- `infer_commodity_from_type_field`: numeric values go through the ERT
table (`int(value)` then `infer_commodity_from_ert_type`, which re-converts;
the composition equals applying the ERT inference directly), strings are
matched textually, anything else yields nothing. -/
def infer_commodity_from_type_field (v : Value) : Option Commodity :=
  match v with
  | Value.bool _ => infer_commodity_from_ert_type v
  | Value.int _ => infer_commodity_from_ert_type v
  | Value.float _ => infer_commodity_from_ert_type v
  | Value.str s =>
    let t := pyLower (pyStrip s)
    if t = "electric" ∨ t = "electricity" ∨ t = "energy" ∨ t = "power" then
      some Commodity.electric
    else if t = "gas" ∨ t = "natural gas" then some Commodity.gas
    else if t = "water" then some Commodity.water
    else Option.none
  | Value.null => Option.none

/-- `_parse_boolish`: best-effort boolean conversion. -/
def _parse_boolish : Value → Option Bool
  | Value.null => Option.none
  | Value.bool b => some b
  | Value.int n => some (decide (n ≠ 0))
  | Value.float q => some (decide (q ≠ 0))
  | Value.str s =>
    let v := pyLower (pyStrip s)
    if v = "1" ∨ v = "true" ∨ v = "on" ∨ v = "yes" ∨ v = "ok" ∨ v = "good" then some true
    else if v = "0" ∨ v = "false" ∨ v = "off" ∨ v = "no" ∨ v = "low" ∨ v = "bad" then some false
    else Option.none

/-! ## Data model -/

/-- A `(unit, device_class, icon, friendly_name)` tuple as used by
`field_meta.FIELD_META` and `_publish_discovery`.  `unit` is optional
(`None` in Python). -/
structure FieldMeta where
  unit : Option String
  device_class : String
  icon : String
  fname : String
deriving DecidableEq, Repr

/-- Modelled from the spec: `config.py` and `field_meta.py` are not part of
the verified sources.  Per the specification the Field Classifier is a pure,
stateless function and the configuration a set of constants, so they are
modelled abstractly as this record of exactly the values `mqtt_handler.py`
and `data_processor.py` read:

* `idSuffix` — `config.ID_SUFFIX`
* `mainSensors` — `config.MAIN_SENSORS`
* `rtlExpireAfter` — `config.RTL_EXPIRE_AFTER`
* `batteryClearAfter` — `int(getattr(config, "BATTERY_OK_CLEAR_AFTER", 0) or 0)`
* `gasUnit` — `str(getattr(config.settings, "gas_unit", "ft3") or "ft3")`
* `getFieldMeta` — `field_meta.get_field_meta` (`Option.none` = Python `None`)
* `fieldMetaTable` — lookup in the `field_meta.FIELD_META` dict
-/
structure Cfg where
  idSuffix : String
  mainSensors : List String
  rtlExpireAfter : ℤ
  batteryClearAfter : ℤ
  gasUnit : String
  getFieldMeta : String → String → Option FieldMeta
  fieldMetaTable : String → Option FieldMeta

/-- The signature tuple computed in `_publish_discovery` (lines 860-868):
`(domain, device_class, unit_of_measurement, icon, name, entity_category,
state_class)`, each read from the payload with `payload.get`. -/
structure DiscoverySig where
  domain : String
  device_class : Option String
  unit : Option String
  icon : String
  name : String
  entity_category : Option String
  state_class : Option String
deriving DecidableEq, Repr

/-- The discovery payload built by `_publish_discovery`, restricted to the
fields that vary with its inputs.  The device-registry block
(`identifiers`/`manufacturer`/`model`/`name`/`via_device`/`sw_version`),
`availability_topic` and the battery `payload_on`/`payload_off` extras are
functions of the same inputs but never read by the diffing logic; the
battery extras are recorded as the flag `payload_onoff`. -/
structure DiscoveryPayload where
  name : String
  state_topic : String
  unique_id : String
  icon : String
  device_class : Option String
  entity_category : Option String
  unit_of_measurement : Option String
  state_class : Option String
  expire_after : Option ℤ
  payload_onoff : Bool
deriving DecidableEq, Repr

/-- One `client.publish(...)` performed by the embedded code:
a retained discovery config, a retained state value (published as
`str(out_value)`; the event records the value itself), or an empty retained
payload clearing an old config (the battery migration helper). -/
inductive Event where
  | discovery (topic : String) (payload : DiscoveryPayload)
  | state (topic : String) (value : Value)
  | clearConfig (topic : String)
deriving DecidableEq, Repr

/-- Per-device battery latch state (`HomeNodeMQTT._battery_state` entries). -/
structure BatterySt where
  latched_low : Bool
  last_low : Option ℚ
  ok_candidate_since : Option ℚ
  ok_since : Option ℚ
deriving DecidableEq, Repr

/-- The `setdefault` default used in `send_sensor`'s battery branch. -/
def batteryInit : BatterySt :=
  { latched_low := false, last_low := Option.none,
    ok_candidate_since := Option.none, ok_since := Option.none }

/-- The mutable state of a `HomeNodeMQTT` instance that `send_sensor` and
`_publish_discovery` read or write. -/
structure MHState where
  discoveryPublished : List String
  lastSent : List (String × Value)
  tracked : List String
  migrationCleared : List String
  battery : List (String × BatterySt)
  commodity : List (String × Commodity)
  deviceModel : List (String × String)
  utilityLastRaw : List ((String × String) × Value)
  discoverySig : List (String × DiscoverySig)
deriving DecidableEq, Repr

/-- Fresh instance state (`HomeNodeMQTT.__init__`). -/
def initState : MHState :=
  { discoveryPublished := [], lastSent := [], tracked := [],
    migrationCleared := [], battery := [], commodity := [],
    deviceModel := [], utilityLastRaw := [], discoverySig := [] }

/-- The utility total field names checked throughout `send_sensor` and
`_utility_normalize_value`. -/
def utility_fields : List String :=
  ["Consumption", "consumption", "consumption_data", "meter_reading"]

/-- Python `a or b` on strings (empty string is falsy). -/
def pyOrS (a b : String) : String := if a = "" then b else a

/-! ## mqtt_handler.HomeNodeMQTT methods -/

/-- `HomeNodeMQTT._utility_meta_override` (reads
`self._commodity_by_device` and `self._device_model_by_id`). -/
def _utility_meta_override (cfg : Cfg) (commodity_by_device : List (String × Commodity))
    (device_model_by_id : List (String × String)) (clean_id field : String) :
    Option FieldMeta :=
  match alistGet? commodity_by_device clean_id with
  | Option.none => Option.none
  | some Commodity.electric =>
    some { unit := some "kWh", device_class := "energy", icon := "mdi:flash",
           fname := "Energy Reading" }
  | some Commodity.gas =>
    let gas_unit := pyLower (pyStrip (pyOrS cfg.gasUnit "ft3"))
    if gas_unit = "ccf" ∨ gas_unit = "centum_cubic_feet" then
      some { unit := some "CCF", device_class := "gas", icon := "mdi:fire",
             fname := "Gas Usage" }
    else
      some { unit := some "ft³", device_class := "gas", icon := "mdi:fire",
             fname := "Gas Usage" }
  | some Commodity.water =>
    let model := pyStrip (pyOrS ((alistGet? device_model_by_id clean_id).getD "") "")
    if field = "meter_reading" ∧ strStartsWith (pyLower model) "neptune-r900" then
      some { unit := some "gal", device_class := "water", icon := "mdi:water-pump",
             fname := "Water Usage" }
    else
      some { unit := some "ft³", device_class := "water", icon := "mdi:water-pump",
             fname := "Water Reading" }

/-- `HomeNodeMQTT._utility_normalize_value`.  Note that once the commodity is
known and `float(value)` succeeds, every branch returns a Python float. -/
def _utility_normalize_value (cfg : Cfg) (commodity_by_device : List (String × Commodity))
    (device_model_by_id : List (String × String)) (clean_id field : String)
    (value : Value) (device_model : String) : Value :=
  match alistGet? commodity_by_device clean_id with
  | Option.none => value
  | some commodity =>
    if field ∉ utility_fields then value
    else
      match value.toFloat? with
      | Option.none => value
      | some v =>
        let model :=
          pyLower (pyStrip (pyOrS (pyOrS device_model
            ((alistGet? device_model_by_id clean_id).getD "")) ""))
        match commodity with
        | Commodity.electric =>
          if strStartsWith model "ert-scm" ∨ strStartsWith model "scmplus" then
            Value.float (pyRound2 (v * (1/100)))
          else Value.float v
        | Commodity.gas =>
          let gas_unit := pyLower (pyStrip (pyOrS cfg.gasUnit "ft3"))
          if gas_unit = "ccf" ∨ gas_unit = "centum_cubic_feet" then
            Value.float (pyRound2 (v * (1/100)))
          else Value.float v
        | Commodity.water => Value.float v

/-- The battery latch update inlined in `send_sensor` (lines 951-986):
given the configured clear delay, the stored state, the parsed `battery_ok`
input and the current time, returns the new state and the published
"is low" flag. -/
def batteryUpdate (clear_after : ℤ) (st : BatterySt) (ok : Bool) (now : ℚ) :
    BatterySt × Bool :=
  if !ok then
    ({ latched_low := true, last_low := some now,
       ok_candidate_since := Option.none, ok_since := Option.none }, true)
  else if st.latched_low then
    let cand := st.ok_candidate_since.getD now
    if clear_after ≤ 0 ∨ (clear_after : ℚ) ≤ now - cand then
      ({ latched_low := false, last_low := st.last_low,
         ok_candidate_since := Option.none, ok_since := some now }, false)
    else
      ({ latched_low := true, last_low := st.last_low,
         ok_candidate_since := some cand, ok_since := st.ok_since }, true)
  else
    ({ latched_low := false, last_low := st.last_low,
       ok_candidate_since := st.ok_candidate_since,
       ok_since := some (st.ok_since.getD now) }, false)

/-- The default metadata tuple of `_publish_discovery`:
`(None, "none", "mdi:eye", sensor_name.replace("_", " ").title())`. -/
def defaultMeta (sensor_name : String) : FieldMeta :=
  { unit := Option.none, device_class := "none", icon := "mdi:eye",
    fname := pyTitle (pyReplace sensor_name "_" " ") }

/-- The discovery payload assembled by `_publish_discovery` (given the
already-suffixed `unique_id`), restricted to the diff-relevant fields. -/
def discoveryPayloadOf (cfg : Cfg) (sensor_name state_topic uid_full device_model : String)
    (friendly_name_override : Option String) (domain : String) (extraOnOff : Bool)
    (meta_override : Option FieldMeta) : DiscoveryPayload :=
  let dm := defaultMeta sensor_name
  let meta :=
    if strStartsWith sensor_name "radio_status" then
      (cfg.fieldMetaTable "radio_status").getD dm
    else
      match meta_override with
      | some m => m
      | Option.none => (cfg.getFieldMeta sensor_name device_model).getD dm
  let friendly_name :=
    if (friendly_name_override.getD "") ≠ "" then friendly_name_override.getD ""
    else if strStartsWith sensor_name "radio_status_" then
      meta.fname ++ " " ++ (pyReplace sensor_name "radio_status_" "")
    else meta.fname
  let entity_category : Option String :=
    if sensor_name ∈ cfg.mainSensors ∨ strStartsWith sensor_name "radio_status"
        ∨ meta.device_class = "gas" ∨ meta.device_class = "energy"
        ∨ meta.device_class = "water" then
      Option.none
    else some "diagnostic"
  let unit_om : Option String :=
    if domain = "sensor" ∧ (meta.unit.getD "") ≠ "" then some (meta.unit.getD "")
    else Option.none
  let state_class : Option String :=
    if domain = "sensor" then
      if meta.device_class = "gas" ∨ meta.device_class = "energy"
          ∨ meta.device_class = "water" ∨ meta.device_class = "monetary"
          ∨ meta.device_class = "precipitation" then some "total_increasing"
      else if meta.device_class = "temperature" ∨ meta.device_class = "humidity"
          ∨ meta.device_class = "pressure" ∨ meta.device_class = "illuminance"
          ∨ meta.device_class = "voltage" ∨ meta.device_class = "wind_speed"
          ∨ meta.device_class = "moisture" then some "measurement"
      else if meta.device_class = "wind_direction" then some "measurement_angle"
      else Option.none
    else Option.none
  let expire_after : Option ℤ :=
    if containsSub (pyLower sensor_name) "version" = false
        ∧ strStartsWith sensor_name "radio_status" = false then
      if sensor_name = "battery_ok" then some (max cfg.rtlExpireAfter 86400)
      else some cfg.rtlExpireAfter
    else Option.none
  { name := friendly_name, state_topic := state_topic, unique_id := uid_full,
    icon := meta.icon,
    device_class := if meta.device_class ≠ "none" then some meta.device_class else Option.none,
    entity_category := entity_category, unit_of_measurement := unit_om,
    state_class := state_class, expire_after := expire_after,
    payload_onoff := extraOnOff }

/-- The signature tuple read off the payload (lines 860-868). -/
def sigOfPayload (domain : String) (p : DiscoveryPayload) : DiscoverySig :=
  { domain := domain, device_class := p.device_class, unit := p.unit_of_measurement,
    icon := p.icon, name := p.name, entity_category := p.entity_category,
    state_class := p.state_class }

/-- `HomeNodeMQTT._publish_discovery`: build payload and signature, publish
the retained config only when the signature differs from the stored one,
and record the entity as published.  Returns
`(published_now, new_state, events)`. -/
def _publish_discovery (cfg : Cfg) (st : MHState)
    (sensor_name state_topic unique_id _device_name device_model : String)
    (friendly_name_override : Option String) (domain : String) (extraOnOff : Bool)
    (meta_override : Option FieldMeta) : Bool × MHState × List Event :=
  let uid := unique_id ++ cfg.idSuffix
  let payload := discoveryPayloadOf cfg sensor_name state_topic uid device_model
    friendly_name_override domain extraOnOff meta_override
  let sig := sigOfPayload domain payload
  if alistGet? st.discoverySig uid = some sig then
    (false, { st with discoveryPublished := listInsert st.discoveryPublished uid }, [])
  else
    (true,
     { st with discoveryPublished := listInsert st.discoveryPublished uid,
               discoverySig := alistSet st.discoverySig uid sig },
     [Event.discovery ("homeassistant/" ++ domain ++ "/" ++ uid ++ "/config") payload])

/-- The tail of `send_sensor` (lines 1005-1027): discovery publish, then the
state-publish decision
`value_changed = (last_sent != out_value) or discovery_published_now`,
publish when `value_changed or is_rtl`, recording the sent value. -/
def finishSend (cfg : Cfg) (st : MHState)
    (field state_topic unique_id device_name device_model : String)
    (friendly_name : Option String) (domain : String) (extraOnOff : Bool)
    (meta_override : Option FieldMeta) (out_value : Value) (is_rtl : Bool)
    (preEvs : List Event) : MHState × List Event :=
  let pd := _publish_discovery cfg st field state_topic unique_id device_name
    device_model friendly_name domain extraOnOff meta_override
  let changed := pd.1
  let st1 := pd.2.1
  let uid_v2 := unique_id ++ cfg.idSuffix
  let value_changed :=
    (match alistGet? st1.lastSent uid_v2 with
     | Option.none => true
     | some prev => ! pyEq prev out_value) || changed
  if value_changed || is_rtl then
    ({ st1 with lastSent := alistSet st1.lastSent uid_v2 out_value },
     preEvs ++ pd.2.2 ++ [Event.state state_topic out_value])
  else (st1, preEvs ++ pd.2.2)

/-- The three sequential commodity-hint checks in `send_sensor`
(lines 916-926). -/
def commodityHint (field : String) (value : Value) : Option Commodity :=
  let c1 :=
    if field = "ert_type" ∨ field = "ertType" ∨ field = "ERTType" then
      infer_commodity_from_ert_type value
    else Option.none
  let c2 :=
    if c1 = Option.none ∧ (field = "MeterType" ∨ field = "meter_type" ∨ field = "metertype") then
      infer_commodity_from_meter_type value
    else c1
  if c2 = Option.none ∧ (field = "type" ∨ field = "Type") then
    infer_commodity_from_type_field value
  else c2

/-- The body of `HomeNodeMQTT.send_sensor`, parameterized by the refresh
callback so that the recursion through
`_refresh_utility_entities_for_device` can be tied off explicitly: the
refresh loop only ever re-sends fields in `utility_fields`, and for those
fields the commodity branch can never fire (they are not hint fields), so
the nested calls never recurse further. -/
def sendSensorBody
    (refreshFn : Cfg → MHState → ℚ → String → String → String → MHState × List Event)
    (cfg : Cfg) (st : MHState) (now : ℚ)
    (sensor_id field : String) (value : Value)
    (device_name device_model : String)
    (is_rtl : Bool) (friendly_name : Option String) : MHState × List Event :=
  if value = Value.null then (st, [])
  else
    let st1 := { st with tracked := listInsert st.tracked device_name }
    let clean_id := clean_mac sensor_id
    let st2 := { st1 with deviceModel := alistSet st1.deviceModel clean_id device_model }
    let unique_id := clean_id ++ "_" ++ field
    let state_topic := "home/rtl_devices/" ++ clean_id ++ "/" ++ field
    let st3 :=
      if field ∈ utility_fields then
        { st2 with utilityLastRaw := alistSet st2.utilityLastRaw (clean_id, field) value }
      else st2
    let prev_commodity := alistGet? st3.commodity clean_id
    let commodity_update := commodityHint field value
    let stref :=
      match commodity_update with
      | some c =>
        if prev_commodity ≠ some c then
          refreshFn cfg { st3 with commodity := alistSet st3.commodity clean_id c }
            now clean_id device_name device_model
        else (st3, [])
      | Option.none => (st3, [])
    let st4 := stref.1
    let refreshEvs := stref.2
    let meta_override :=
      if field ∈ utility_fields then
        _utility_meta_override cfg st4.commodity st4.deviceModel clean_id field
      else Option.none
    let out_value :=
      if field ∈ utility_fields then
        _utility_normalize_value cfg st4.commodity st4.deviceModel clean_id field
          value device_model
      else value
    if field = "battery_ok" then
      match _parse_boolish value with
      | Option.none => (st4, refreshEvs)
      | some ok =>
        let bst := (alistGet? st4.battery clean_id).getD batteryInit
        let br := batteryUpdate cfg.batteryClearAfter bst ok now
        let st5 := { st4 with battery := alistSet st4.battery clean_id br.1 }
        let out_value2 := Value.str (if br.2 then "ON" else "OFF")
        let uid_v2 := unique_id ++ cfg.idSuffix
        let stmig :=
          if uid_v2 ∈ st5.migrationCleared then (st5, ([] : List Event))
          else
            ({ st5 with discoveryPublished := st5.discoveryPublished.erase uid_v2,
                        migrationCleared := listInsert st5.migrationCleared uid_v2 },
             [Event.clearConfig ("homeassistant/sensor/" ++ uid_v2 ++ "/config")])
        let fn := if friendly_name = Option.none then some "Battery Low" else friendly_name
        finishSend cfg stmig.1 field state_topic unique_id device_name device_model fn
          "binary_sensor" true Option.none out_value2 is_rtl (refreshEvs ++ stmig.2)
    else
      finishSend cfg st4 field state_topic unique_id device_name device_model
        friendly_name "sensor" false meta_override out_value is_rtl refreshEvs

/-- `send_sensor` as invoked from `_refresh_utility_entities_for_device`:
those calls only re-send `utility_fields`, for which the refresh branch is
unreachable, so the callback is the identity. -/
def send_sensor_leaf (cfg : Cfg) (st : MHState) (now : ℚ)
    (sensor_id field : String) (value : Value) (device_name device_model : String)
    (is_rtl : Bool) (friendly_name : Option String) : MHState × List Event :=
  sendSensorBody (fun _ s _ _ _ _ => (s, [])) cfg st now sensor_id field value
    device_name device_model is_rtl friendly_name

/-- `HomeNodeMQTT._refresh_utility_entities_for_device`: iterate a snapshot
of `self._utility_last_raw`, re-sending every entry of this device with
`is_rtl=False`. -/
def _refresh_utility_entities_for_device (cfg : Cfg) (st : MHState) (now : ℚ)
    (clean_id device_name device_model : String) : MHState × List Event :=
  (st.utilityLastRaw.filter (fun e => e.1.1 == clean_id)).foldl
    (fun acc e =>
      let r := send_sensor_leaf cfg acc.1 now clean_id e.1.2 e.2 device_name
        device_model false Option.none
      (r.1, acc.2 ++ r.2))
    (st, [])

/-- `HomeNodeMQTT.send_sensor`. -/
def send_sensor (cfg : Cfg) (st : MHState) (now : ℚ)
    (sensor_id field : String) (value : Value) (device_name device_model : String)
    (is_rtl : Bool) (friendly_name : Option String) : MHState × List Event :=
  sendSensorBody _refresh_utility_entities_for_device cfg st now sensor_id field value
    device_name device_model is_rtl friendly_name

/-- The normalized outgoing value of a `send_sensor` call, recomputed from
the pre-call state (used to state claims about the publish decision):
`battery_ok` values go through the latch, utility totals through
`_utility_normalize_value` (after `self._device_model_by_id[clean_id]` has
been set), everything else is passed through. -/
def sendOutValue (cfg : Cfg) (st : MHState) (now : ℚ)
    (sensor_id field : String) (value : Value) (device_model : String) : Value :=
  let clean_id := clean_mac sensor_id
  if field = "battery_ok" then
    match _parse_boolish value with
    | some ok =>
      Value.str
        (if (batteryUpdate cfg.batteryClearAfter
              ((alistGet? st.battery clean_id).getD batteryInit) ok now).2
         then "ON" else "OFF")
    | Option.none => Value.null
  else if field ∈ utility_fields then
    _utility_normalize_value cfg st.commodity
      (alistSet st.deviceModel clean_id device_model) clean_id field value device_model
  else value

/-- The state publishes among `evs` aimed at `topic`. -/
def stateEventsTo (evs : List Event) (topic : String) : List Event :=
  evs.filter (fun e =>
    match e with
    | Event.state t _ => t == topic
    | _ => false)

/-- Whether `evs` contains a discovery publish to `topic`. -/
def hasDiscoveryTo (evs : List Event) (topic : String) : Bool :=
  evs.any (fun e =>
    match e with
    | Event.discovery t _ => t == topic
    | _ => false)

/-- State well-formedness maintained by the code: every key of
`self._utility_last_raw` was stored with a field in `utility_fields`
(line 905-906). -/
def WFUtil (st : MHState) : Bool :=
  st.utilityLastRaw.all (fun e => utility_fields.contains e.1.2)

/-! ## data_processor.py -/

/-- `NON_AVERAGED_NUMERIC_FIELDS`. -/
def NON_AVERAGED_NUMERIC_FIELDS : List String := ["battery_ok"]

/-- `data_processor._aggregation_mode`, with the Field Classifier
(`field_meta.get_field_meta`) passed in. -/
def _aggregation_mode (gfm : String → String → Option FieldMeta)
    (field device_model : String) : String :=
  let f := pyStrip field
  let f_l := pyLower f
  if f ∈ NON_AVERAGED_NUMERIC_FIELDS then "last"
  else if f_l = "wind_dir" ∨ f_l = "wind_dir_deg" then "last"
  else if containsSub f_l "gust" then "max"
  else if f_l = "rssi" ∨ f_l = "snr" ∨ f_l = "noise" ∨ f_l = "rssi_db"
      ∨ f_l = "snr_db" ∨ f_l = "noise_db" then "max"
  else if f_l = "counter" ∨ f_l = "sequence" ∨ f_l = "strikes"
      ∨ f_l = "strike_count" then "last"
  else
    match gfm f device_model with
    | some meta =>
      if meta.device_class = "gas" ∨ meta.device_class = "energy"
          ∨ meta.device_class = "water" ∨ meta.device_class = "precipitation" then
        "last"
      else "mean"
    | Option.none => "mean"

/-- Python `max(values)` on a list of numbers; `Option.none` models the
`TypeError` raised when a non-numeric element is compared.  Like Python's
`max`, ties keep the first maximal element (with its original type). -/
def pyMaxNum? : List Value → Option Value
  | [] => Option.none
  | v :: vs =>
    if (v :: vs).all isNumLike then
      some (vs.foldl
        (fun cur x => if ((cur.toNum?).getD 0) < ((x.toNum?).getD 0) then x else cur) v)
    else Option.none

/-- `statistics.mean(values)`; `Option.none` models the exception raised on
an empty or non-numeric input. -/
def pyMeanQ? (l : List Value) : Option ℚ :=
  if l ≠ [] ∧ l.all isNumLike then
    some ((l.map (fun v => (v.toNum?).getD 0)).sum / (l.length : ℚ))
  else Option.none

/-- The `try`-block of the flush reduction in
`DataProcessor.start_throttle_loop` (lines 154-168), up to the
integer normalization: `Option.none` models an exception escaping to the
`except` handler. -/
def flushReduceCore (gfm : String → String → Option FieldMeta)
    (field device_model : String) (values : List Value) : Option Value :=
  if isNumLike (values.headD Value.null) = false then some (values.getLastD Value.null)
  else
    let mode := _aggregation_mode gfm field device_model
    if mode = "last" then some (values.getLastD Value.null)
    else if mode = "max" then pyMaxNum? values
    else (pyMeanQ? values).map (fun q => Value.float (pyRound2 q))

/-- Lines 169-171: `if isinstance(final_val, float) and final_val.is_integer():
final_val = int(final_val)`. -/
def intNormalize : Value → Value
  | Value.float q => if q.den = 1 then Value.int q.num else Value.float q
  | v => v

/-- The complete flush reduction for one field (lines 154-173): the reduced
and integer-normalized value, or — if the reduction raised — the last raw
value of the interval.  The field is always forwarded with the result. -/
def flushReduce (gfm : String → String → Option FieldMeta)
    (field device_model : String) (values : List Value) : Value :=
  match flushReduceCore gfm field device_model values with
  | some fv => intNormalize fv
  | Option.none => values.getLastD Value.null

/-! ## Trace runners used to state the battery claims -/

/-- Run a sequence of timed `battery_ok` readings through `send_sensor`
(each with the default `is_rtl=True`), collecting final state and all
published events. -/
def runBat (cfg : Cfg) (sid dn dm : String) : MHState → List (ℚ × Value) → MHState × List Event
  | st, [] => (st, [])
  | st, (t, v) :: rest =>
    let r := send_sensor cfg st t sid "battery_ok" v dn dm true Option.none
    let r2 := runBat cfg sid dn dm r.1 rest
    (r2.1, r.2 ++ r2.2)

/-- Fold the raw battery latch over a list of `(ok, time)` inputs. -/
def batRunSt (ca : ℤ) (st : BatterySt) (l : List (Bool × ℚ)) : BatterySt :=
  l.foldl (fun s p => (batteryUpdate ca s p.1 p.2).1) st

/-- One step of the trailing-ok-run tracker: an ok reading keeps (or starts)
the run, a not-ok reading resets it. -/
def streakStep (acc : Option ℚ) (p : Bool × ℚ) : Option ℚ :=
  if p.1 then
    match acc with
    | Option.none => some p.2
    | s => s
  else Option.none

/-- The start time of the maximal all-ok suffix of an input trace: exactly
the value the latch keeps in `ok_candidate_since` while latched. -/
def okStreakStart (l : List (Bool × ℚ)) : Option ℚ :=
  l.foldl streakStep Option.none

/-- A neutral concrete configuration used for concrete scenarios: no id
suffix, no main sensors, classifier with no entries (every field gets the
default metadata), default gas unit. -/
def cfg0 : Cfg :=
  { idSuffix := "", mainSensors := [], rtlExpireAfter := 0, batteryClearAfter := 0,
    gasUnit := "ft3", getFieldMeta := fun _ _ => Option.none,
    fieldMetaTable := fun _ => Option.none }

/-- A timed sequence of parsed battery flags re-encoded as the `0`/`1`
integer payloads `send_sensor` receives. -/
def boolTrace (pl : List (Bool × ℚ)) : List (ℚ × Value) :=
  pl.map (fun q => (q.2, Value.int (if q.1 then 1 else 0)))

/-- `m` consecutive ok readings starting at offset `k` on a uniform grid:
times `t1 + (k+i)*iv`. -/
def okTimes (t1 iv : ℚ) (k m : ℕ) : List (Bool × ℚ) :=
  (List.range m).map (fun i => (true, t1 + ((k + i : ℕ) : ℚ) * iv))

/-- The sequence of published "is low" flags of the latch over a trace. -/
def batOuts (ca : ℤ) : BatterySt → List (Bool × ℚ) → List Bool
  | _, [] => []
  | bst, (ok, t) :: rest =>
    (batteryUpdate ca bst ok t).2 :: batOuts ca (batteryUpdate ca bst ok t).1 rest

/-- The metadata tuple `_utility_meta_override` produces for a gas meter
under the default `ft3` unit preference. -/
def gasFt3Meta : FieldMeta := FieldMeta.mk (some "ft³") "gas" "mdi:fire" "Gas Usage"

/-- The state reached after publishing `Consumption = v` for a fresh device
(first call of the commodity-retroactivity scenario, under `cfg0`). -/
def consumptionState (sid dn dm : String) (v : ℤ) : MHState :=
  { discoveryPublished := [clean_mac sid ++ "_" ++ "Consumption" ++ cfg0.idSuffix],
    lastSent := [(clean_mac sid ++ "_" ++ "Consumption" ++ cfg0.idSuffix, Value.int v)],
    tracked := [dn], migrationCleared := [], battery := [],
    commodity := [],
    deviceModel := [(clean_mac sid, dm)],
    utilityLastRaw := [((clean_mac sid, "Consumption"), Value.int v)],
    discoverySig := [(clean_mac sid ++ "_" ++ "Consumption" ++ cfg0.idSuffix,
      sigOfPayload "sensor" (discoveryPayloadOf cfg0 "Consumption"
        ("home/rtl_devices/" ++ clean_mac sid ++ "/" ++ "Consumption")
        (clean_mac sid ++ "_" ++ "Consumption" ++ cfg0.idSuffix) dm Option.none
        "sensor" false Option.none))] }

/-- The discovery payload `_publish_discovery` computes when a cached
utility reading of field `f` for device `cid` is re-sent (state topic
`home/rtl_devices/<cid>/<f>`, unique id `<cid>_<f><suffix>`, domain
`sensor`, the commodity meta override applied). -/
def utilPayload (cfg : Cfg) (com : List (String × Commodity))
    (dmm : List (String × String)) (cid f dm : String) : DiscoveryPayload :=
  discoveryPayloadOf cfg f ("home/rtl_devices/" ++ cid ++ "/" ++ f)
    (cid ++ "_" ++ f ++ cfg.idSuffix) dm Option.none "sensor" false
    (_utility_meta_override cfg com dmm cid f)

/-- The discovery signature of `utilPayload`. -/
def utilSig (cfg : Cfg) (com : List (String × Commodity))
    (dmm : List (String × String)) (cid f dm : String) : DiscoverySig :=
  sigOfPayload "sensor" (utilPayload cfg com dmm cid f dm)

/-! ## Shared helper lemmas -/

theorem commodityHint_battery (v : Value) : commodityHint "battery_ok" v = Option.none := by
  simp [commodityHint]

theorem battery_not_utility : "battery_ok" ∉ utility_fields := by decide

theorem mem_of_isAsciiAlnum (c : Char) (h : isAsciiAlnum c = true) : c ∈ asciiAlnumChars := by
  simpa [isAsciiAlnum] using h

set_option maxHeartbeats 1000000 in
theorem char_table_lower (c : Char) (h : c ∈ asciiAlnumChars) :
    isLowerAlnum (Char.toLower c) = true ∧ Char.toLower (Char.toLower c) = Char.toLower c
      ∧ isAsciiAlnum (Char.toLower c) = true := by
  fin_cases h <;> exact ⟨by decide, by decide, by decide⟩

theorem string_append_cancel_left {a b c : String} (h : a ++ b = a ++ c) : b = c := by
  have h2 := congrArg String.data h
  simp only [String.data_append] at h2
  exact String.ext (List.append_cancel_left h2)

theorem string_append_cancel_right {a b c : String} (h : a ++ c = b ++ c) : a = b := by
  have h2 := congrArg String.data h
  simp only [String.data_append] at h2
  exact String.ext (List.append_cancel_right h2)

theorem clean_mac_ne_empty (s : String) : clean_mac s ≠ "" := by
  unfold clean_mac
  by_cases h : String.mk (s.data.filter isAsciiAlnum) = ""
  · simp [h]
  · simp only [h, if_neg h]
    intro hc
    apply h
    have := congrArg String.data hc
    simp only at this
    have hl : (s.data.filter isAsciiAlnum) = [] := by
      have := List.map_eq_nil_iff.mp this
      exact this
    simp [hl]

theorem clean_mac_chars (s : String) : ∀ c ∈ (clean_mac s).data, isLowerAlnum c = true := by
  unfold clean_mac
  by_cases h : String.mk (s.data.filter isAsciiAlnum) = ""
  · rw [if_pos h]
    decide
  · simp only [if_neg h]
    intro c hc
    simp only [List.mem_map] at hc
    obtain ⟨c0, hc0, rfl⟩ := hc
    have hmem : c0 ∈ asciiAlnumChars :=
      mem_of_isAsciiAlnum c0 (List.of_mem_filter hc0)
    exact (char_table_lower c0 hmem).1

theorem clean_mac_unknown (s : String) (h : ∀ c ∈ s.data, isAsciiAlnum c = false) :
    clean_mac s = "unknown" := by
  unfold clean_mac
  have hl : s.data.filter isAsciiAlnum = [] := by
    rw [List.filter_eq_nil_iff]
    intro a ha
    simp [h a ha]
  simp [hl]

theorem clean_mac_idem (s : String) : clean_mac (clean_mac s) = clean_mac s := by
  by_cases h : String.mk (s.data.filter isAsciiAlnum) = ""
  · have h1 : clean_mac s = "unknown" := by unfold clean_mac; simp [h]
    rw [h1]; decide
  · have h1 : clean_mac s = String.mk ((s.data.filter isAsciiAlnum).map Char.toLower) := by
      unfold clean_mac; simp [h]
    have hmemall : ∀ c ∈ (s.data.filter isAsciiAlnum).map Char.toLower,
        isAsciiAlnum c = true ∧ Char.toLower c = c := by
      intro c hc
      simp only [List.mem_map] at hc
      obtain ⟨c0, hc0, rfl⟩ := hc
      have hmem : c0 ∈ asciiAlnumChars :=
        mem_of_isAsciiAlnum c0 (List.of_mem_filter hc0)
      exact ⟨(char_table_lower c0 hmem).2.2, (char_table_lower c0 hmem).2.1⟩
    rw [h1]
    unfold clean_mac
    have hfilter : ((s.data.filter isAsciiAlnum).map Char.toLower).filter isAsciiAlnum
        = (s.data.filter isAsciiAlnum).map Char.toLower := by
      rw [List.filter_eq_self]
      intro a ha; exact (hmemall a ha).1
    have hne : String.mk ((s.data.filter isAsciiAlnum).map Char.toLower) ≠ "" := by
      rw [← h1]; exact clean_mac_ne_empty s
    simp only [hfilter, if_neg hne]
    have hmap : ((s.data.filter isAsciiAlnum).map Char.toLower).map Char.toLower
        = (s.data.filter isAsciiAlnum).map Char.toLower :=
      List.map_congr_left (fun a ha => (hmemall a ha).2) |>.trans (List.map_id _)
    rw [hmap]

theorem pyRound2_den (x : ℚ) : (pyRound2 x * 100).den = 1 := by
  unfold pyRound2
  rw [div_mul_cancel₀]
  · exact Rat.den_intCast _
  · norm_num

theorem rat_floor_eq_intFloor (q : ℚ) : Rat.floor q = ⌊q⌋ :=
  (Rat.floor_def' q).trans Rat.floor_def.symm

set_option linter.unusedTactic false in
theorem pyRoundInt_close (x : ℚ) : |(pyRoundInt x : ℚ) - x| ≤ 1/2 := by
  unfold pyRoundInt
  rw [rat_floor_eq_intFloor]
  have h0 : (0 : ℚ) ≤ x - ⌊x⌋ := by
    have := Int.floor_le x; linarith
  have h1 : x - ⌊x⌋ < 1 := by
    have := Int.lt_floor_add_one x; push_cast; linarith
  split
  · rw [abs_le]; constructor <;> push_cast <;> linarith
  · split
    · rw [abs_le]; constructor <;> push_cast <;> linarith
    · have heq : x - ⌊x⌋ = 1/2 := le_antisymm (by linarith) (by linarith)
      split <;> (rw [abs_le]; constructor <;> push_cast <;> linarith)

theorem pyRound2_close (x : ℚ) : |pyRound2 x - x| ≤ 1/200 := by
  have h := pyRoundInt_close (x * 100)
  have heq : pyRound2 x - x = ((pyRoundInt (x * 100) : ℚ) - x * 100) / 100 := by
    unfold pyRound2; ring
  rw [heq, abs_div, abs_of_pos (by norm_num : (0:ℚ) < 100)]
  linarith

/-! ## Claim theorems -/

/-- C1: on every call to `_publish_discovery`, the retained discovery config
is published if and only if the newly computed signature
`(domain, device_class, unit, icon, name, entity_category, state_class)`
differs from the signature stored for that `unique_id` (a never-published
entity has no stored signature, which counts as differing); when the
signatures are equal nothing is published and the signature store is
unchanged. -/
theorem C1_discovery_republish_iff_sig_change (cfg : Cfg) (st : MHState)
    (sensor_name state_topic unique_id device_name device_model : String)
    (fn : Option String) (domain : String) (onoff : Bool) (mo : Option FieldMeta) :
    let uid := unique_id ++ cfg.idSuffix
    let payload := discoveryPayloadOf cfg sensor_name state_topic uid device_model fn
      domain onoff mo
    let sig := sigOfPayload domain payload
    let r := _publish_discovery cfg st sensor_name state_topic unique_id device_name
      device_model fn domain onoff mo
    r.2.2 = (if alistGet? st.discoverySig uid = some sig then []
             else [Event.discovery ("homeassistant/" ++ domain ++ "/" ++ uid ++ "/config") payload])
    ∧ r.2.1.discoverySig = (if alistGet? st.discoverySig uid = some sig then st.discoverySig
                            else alistSet st.discoverySig uid sig)
    ∧ r.1 = ! decide (alistGet? st.discoverySig uid = some sig) := by
  simp only [_publish_discovery]
  split
  · simp_all
  · simp_all

/-- C9: a `battery_ok` reading whose value is not parseable as a boolean is
dropped: `send_sensor` returns (the embedding is total, so nothing is
raised), publishes no discovery, state or migration message, and leaves the
device's battery latch state untouched. -/
theorem C9_unparseable_battery_dropped (cfg : Cfg) (st : MHState) (now : ℚ)
    (sid : String) (v : Value) (dn dm : String) (rtl : Bool) (fn : Option String)
    (h : _parse_boolish v = Option.none) :
    (send_sensor cfg st now sid "battery_ok" v dn dm rtl fn).2 = []
    ∧ (send_sensor cfg st now sid "battery_ok" v dn dm rtl fn).1.battery = st.battery := by
  by_cases hv : v = Value.null
  · subst hv; simp [send_sensor, sendSensorBody]
  · simp [send_sensor, sendSensorBody, hv, commodityHint_battery, battery_not_utility, h]

/-- Witness for C9: the concrete unparseable reading `"garbage"`. -/
theorem C9_witness :
    _parse_boolish (Value.str "garbage") = Option.none
    ∧ (send_sensor cfg0 initState 0 "dev" "battery_ok" (Value.str "garbage")
        "D" "M" true Option.none).2 = []
    ∧ (send_sensor cfg0 initState 0 "dev" "battery_ok" (Value.str "garbage")
        "D" "M" true Option.none).1.battery = initState.battery :=
  ⟨by decide,
   C9_unparseable_battery_dropped cfg0 initState 0 "dev" (Value.str "garbage")
     "D" "M" true Option.none (by decide)⟩

theorem getLastD_mem {α : Type} (l : List α) (d : α) (h : l ≠ []) : l.getLastD d ∈ l := by
  rw [List.getLastD_eq_getLast?]
  rw [List.getLast?_eq_getLast_of_ne_nil h]
  simp only [Option.getD_some]
  exact List.getLast_mem h

/-- A Field Classifier with no entries, used to instantiate scenarios. -/
def gfmNone : String → String → Option FieldMeta := fun _ _ => Option.none

/-- C7 (amended): for a field whose aggregation mode is `last` and a
non-empty buffer, the flush reduction yields the final element of the list
up to the integer normalization of lines 169-171 (a float-typed final
element that is mathematically integral is converted to `int`); a buffer of
non-numeric values yields exactly the final element regardless of the
computed mode; and whenever the reduction raises (`flushReduceCore` is
`Option.none`), the field is still forwarded with the last raw value of the
interval, never dropped. -/
theorem C7_last_aggregation (gfm : String → String → Option FieldMeta)
    (field dmodel : String) (values : List Value) (h2 : values ≠ []) :
    (_aggregation_mode gfm field dmodel = "last" →
      flushReduce gfm field dmodel values = intNormalize (values.getLastD Value.null))
    ∧ ((∀ v ∈ values, isNumLike v = false) →
      flushReduce gfm field dmodel values = values.getLastD Value.null)
    ∧ (flushReduceCore gfm field dmodel values = Option.none →
      flushReduce gfm field dmodel values = values.getLastD Value.null) := by
  cases values with
  | nil => exact absurd rfl h2
  | cons v vs =>
    refine ⟨?_, ?_, ?_⟩
    · intro h
      unfold flushReduce flushReduceCore
      by_cases hh : isNumLike v = false
      · simp [hh]
      · simp [hh, h]
    · intro hall
      have hlast := hall _ (getLastD_mem (v :: vs) Value.null h2)
      rw [List.getLastD_eq_getLast?] at hlast
      have hh : isNumLike v = false := hall v (by simp)
      have hnorm : intNormalize ((v :: vs).getLast?.getD Value.null)
          = (v :: vs).getLast?.getD Value.null := by
        rcases hv : (v :: vs).getLast?.getD Value.null with _ | b | n | q | s
        · simp [intNormalize]
        · simp [intNormalize]
        · simp [intNormalize]
        · rw [hv] at hlast; simp [isNumLike] at hlast
        · simp [intNormalize]
      unfold flushReduce flushReduceCore
      simp [hh, hnorm]
    · intro h
      unfold flushReduce
      rw [h]

/-- Counterexample for C7 as stated: with aggregation mode `last`, a buffer
whose final element is the float `2.0` reduces to the integer `2`, not
exactly to the final element (the integer normalization changes its type,
and hence the published payload `str(out)`). -/
theorem C7_counterexample :
    flushReduce gfmNone "battery_ok" "M" [Value.float 2] = Value.int 2
    ∧ [Value.float 2].getLastD Value.null = Value.float 2
    ∧ Value.int 2 ≠ Value.float 2 := by
  exact ⟨by decide, by decide, by decide⟩

/-- Witness for C7: mode-`last` reduction of `["x", 3]` forwards `3`, and an
all-string buffer forwards its final element exactly. -/
theorem C7_witness :
    flushReduce gfmNone "battery_ok" "M" [Value.str "x", Value.int 3] = Value.int 3
    ∧ flushReduce gfmNone "wind_dir" "M" [Value.str "N", Value.str "NE"] = Value.str "NE" :=
  ⟨((C7_last_aggregation gfmNone "battery_ok" "M" [Value.str "x", Value.int 3]
      (by decide)).1 (by decide)).trans (by decide),
   ((C7_last_aggregation gfmNone "wind_dir" "M" [Value.str "N", Value.str "NE"]
      (by decide)).2.1 (by decide)).trans (by decide)⟩

/-- C8: for a field whose aggregation mode is `mean` and a non-empty buffer
of numeric values, the flush reduction yields the arithmetic mean rounded to
2 decimal places (Python `round`, half to even: the result times 100 is an
integer and it is within 1/200 of the exact mean), and the forwarded value
is integer-typed exactly when that rounded mean is mathematically
integral. -/
theorem C8_mean_aggregation (gfm : String → String → Option FieldMeta)
    (field dmodel : String) (values : List Value)
    (h1 : _aggregation_mode gfm field dmodel = "mean") (h2 : values ≠ [])
    (h3 : ∀ v ∈ values, isNumLike v = true) :
    let m := (values.map (fun v => (v.toNum?).getD 0)).sum / (values.length : ℚ)
    let q := pyRound2 m
    flushReduce gfm field dmodel values
      = (if q.den = 1 then Value.int q.num else Value.float q)
    ∧ (q * 100).den = 1
    ∧ |q - m| ≤ 1/200 := by
  refine ⟨?_, pyRound2_den _, pyRound2_close _⟩
  have hmean : pyMeanQ? values
      = some ((values.map (fun v => (v.toNum?).getD 0)).sum / (values.length : ℚ)) := by
    unfold pyMeanQ?
    rw [if_pos ⟨h2, List.all_eq_true.mpr h3⟩]
  cases values with
  | nil => exact absurd rfl h2
  | cons v vs =>
    have hh : isNumLike v = true := h3 v (by simp)
    unfold flushReduce flushReduceCore
    simp only [List.head?_cons, Option.getD_some, hh, h1, hmean, Option.map_some]
    simp [intNormalize, hh]

/-- Witness for C8: mean of `[1, 2]` is the float `1.5`; mean of `[2, 4]` is
integral and forwarded as the integer `3`. -/
theorem C8_witness :
    flushReduce gfmNone "temp" "M" [Value.int 1, Value.int 2] = Value.float (3/2)
    ∧ flushReduce gfmNone "temp" "M" [Value.int 2, Value.int 4] = Value.int 3 :=
  ⟨((C8_mean_aggregation gfmNone "temp" "M" [Value.int 1, Value.int 2]
      (by decide) (by decide) (by decide)).1).trans (by with_unfolding_all decide),
   ((C8_mean_aggregation gfmNone "temp" "M" [Value.int 2, Value.int 4]
      (by decide) (by decide) (by decide)).1).trans (by with_unfolding_all decide)⟩

theorem publish_discovery_spec (cfg : Cfg) (st : MHState) (sn stt uid0 dn dm : String)
    (fn : Option String) (dom : String) (onoff : Bool) (mo : Option FieldMeta)
    (payload : DiscoveryPayload) (sig : DiscoverySig) (uid : String)
    (hu : uid = uid0 ++ cfg.idSuffix)
    (hp : payload = discoveryPayloadOf cfg sn stt uid dm fn dom onoff mo)
    (hs : sig = sigOfPayload dom payload) :
    _publish_discovery cfg st sn stt uid0 dn dm fn dom onoff mo
      = (! decide (alistGet? st.discoverySig uid = some sig),
         { st with
             discoveryPublished := listInsert st.discoveryPublished uid,
             discoverySig :=
               if alistGet? st.discoverySig uid = some sig then st.discoverySig
               else alistSet st.discoverySig uid sig },
         if alistGet? st.discoverySig uid = some sig then []
         else [Event.discovery ("homeassistant/" ++ dom ++ "/" ++ uid ++ "/config") payload]) := by
  subst hu hp hs
  simp only [_publish_discovery]
  split
  · simp_all
  · simp_all

theorem finishSend_spec (cfg : Cfg) (st : MHState)
    (field stt uid0 dn dm : String) (fn : Option String) (dom : String) (onoff : Bool)
    (mo : Option FieldMeta) (out : Value) (rtl : Bool) (preEvs : List Event)
    (uid : String) (pub : Bool)
    (hu : uid = uid0 ++ cfg.idSuffix)
    (hpub : pub = ((match alistGet? (_publish_discovery cfg st field stt uid0 dn dm fn
          dom onoff mo).2.1.lastSent uid with
        | Option.none => true
        | some prev => ! pyEq prev out)
      || (_publish_discovery cfg st field stt uid0 dn dm fn dom onoff mo).1 || rtl)) :
    finishSend cfg st field stt uid0 dn dm fn dom onoff mo out rtl preEvs
      = (if pub then
           { (_publish_discovery cfg st field stt uid0 dn dm fn dom onoff mo).2.1 with
               lastSent := alistSet (_publish_discovery cfg st field stt uid0 dn dm fn
                 dom onoff mo).2.1.lastSent uid out }
         else (_publish_discovery cfg st field stt uid0 dn dm fn dom onoff mo).2.1,
         preEvs ++ (_publish_discovery cfg st field stt uid0 dn dm fn dom onoff mo).2.2
           ++ (if pub then [Event.state stt out] else [])) := by
  subst hu hpub
  simp only [finishSend]
  split
  · next h => simp_all
  · next h => simp_all

theorem finishSend_event_mem (cfg : Cfg) (st : MHState)
    (field stt uid0 dn dm : String) (fn : Option String) (dom : String) (onoff : Bool)
    (mo : Option FieldMeta) (out : Value) (rtl : Bool) (preEvs : List Event) :
    ∀ e ∈ (finishSend cfg st field stt uid0 dn dm fn dom onoff mo out rtl preEvs).2,
      e ∈ preEvs
      ∨ (∃ p, e = Event.discovery ("homeassistant/" ++ dom ++ "/" ++ (uid0 ++ cfg.idSuffix)
          ++ "/config") p)
      ∨ e = Event.state stt out := by
  intro e he
  rw [finishSend_spec cfg st field stt uid0 dn dm fn dom onoff mo out rtl preEvs _ _ rfl rfl] at he
  rw [publish_discovery_spec cfg st field stt uid0 dn dm fn dom onoff mo _ _ _ rfl rfl rfl] at he
  simp only [List.mem_append] at he
  rcases he with (he | he) | he
  · exact Or.inl he
  · split at he
    · simp at he
    · simp at he; exact Or.inr (Or.inl ⟨_, he⟩)
  · split at he
    · simp at he; exact Or.inr (Or.inr he)
    · simp at he

theorem finishSend_event_mem2 (cfg : Cfg) (st : MHState)
    (field stt uid0 dn dm : String) (fn : Option String) (dom : String) (onoff : Bool)
    (mo : Option FieldMeta) (out : Value) (rtl : Bool) (preEvs : List Event) :
    ∀ e ∈ (finishSend cfg st field stt uid0 dn dm fn dom onoff mo out rtl preEvs).2,
      e ∈ preEvs
      ∨ e = Event.discovery ("homeassistant/" ++ dom ++ "/" ++ (uid0 ++ cfg.idSuffix)
          ++ "/config")
          (discoveryPayloadOf cfg field stt (uid0 ++ cfg.idSuffix) dm fn dom onoff mo)
      ∨ e = Event.state stt out := by
  intro e he
  rw [finishSend_spec cfg st field stt uid0 dn dm fn dom onoff mo out rtl preEvs _ _ rfl rfl] at he
  rw [publish_discovery_spec cfg st field stt uid0 dn dm fn dom onoff mo _ _ _ rfl rfl rfl] at he
  simp only [List.mem_append] at he
  rcases he with (he | he) | he
  · exact Or.inl he
  · split at he
    · simp at he
    · simp at he
      exact Or.inr (Or.inl he)
  · split at he
    · simp at he
      exact Or.inr (Or.inr he)
    · simp at he

theorem finishSend_lastSent_frame (cfg : Cfg) (st : MHState)
    (field stt uid0 dn dm : String) (fn : Option String) (dom : String) (onoff : Bool)
    (mo : Option FieldMeta) (out : Value) (rtl : Bool) (preEvs : List Event)
    (k : String) (hk : k ≠ uid0 ++ cfg.idSuffix) :
    alistGet? (finishSend cfg st field stt uid0 dn dm fn dom onoff mo out rtl preEvs).1.lastSent k
      = alistGet? st.lastSent k := by
  rw [finishSend_spec cfg st field stt uid0 dn dm fn dom onoff mo out rtl preEvs _ _ rfl rfl]
  rw [publish_discovery_spec cfg st field stt uid0 dn dm fn dom onoff mo _ _ _ rfl rfl rfl]
  split <;> split <;> simp [alistGet?_set_ne _ _ _ _ (Ne.symm hk)]

theorem leaf_shape (cfg : Cfg) (st : MHState) (now : ℚ) (cid f : String) (v : Value)
    (dn dm : String) (hf : f ∈ utility_fields) :
    (∀ e ∈ (send_sensor_leaf cfg st now cid f v dn dm false Option.none).2,
      (∃ val, e = Event.state ("home/rtl_devices/" ++ clean_mac cid ++ "/" ++ f) val)
      ∨ (∃ p, e = Event.discovery
          ("homeassistant/" ++ "sensor" ++ "/" ++ (clean_mac cid ++ "_" ++ f ++ cfg.idSuffix)
            ++ "/config") p
          ∧ p.unique_id = clean_mac cid ++ "_" ++ f ++ cfg.idSuffix))
    ∧ (∀ k, k ≠ clean_mac cid ++ "_" ++ f ++ cfg.idSuffix →
        alistGet? (send_sensor_leaf cfg st now cid f v dn dm false Option.none).1.lastSent k
          = alistGet? st.lastSent k) := by
  have hfb : f ≠ "battery_ok" := by fin_cases hf <;> decide
  have hhint : commodityHint f v = Option.none := by
    fin_cases hf <;> simp [commodityHint]
  by_cases hv : v = Value.null
  · subst hv; simp [send_sensor_leaf, sendSensorBody]
  · constructor
    · intro e he
      simp only [send_sensor_leaf, sendSensorBody, if_neg hv, hhint, hf, hfb,
        if_true, if_false, reduceIte] at he
      have h2 := finishSend_event_mem2 _ _ _ _ _ _ _ _ _ _ _ _ _ _ e he
      rcases h2 with h2 | rfl | rfl
      · simp at h2
      · exact Or.inr ⟨_, rfl, by simp [discoveryPayloadOf]⟩
      · exact Or.inl ⟨_, rfl⟩
    · intro k hk
      simp only [send_sensor_leaf, sendSensorBody, if_neg hv, hhint, hf, hfb,
        if_true, if_false, reduceIte]
      rw [finishSend_lastSent_frame _ _ _ _ _ _ _ _ _ _ _ _ _ _ k hk]

theorem fold_leaf_shape (cfg : Cfg) (now : ℚ) (cid dn dm : String) :
    ∀ (es : List ((String × String) × Value)) (s0 : MHState) (evs0 : List Event),
    (∀ e ∈ es, e.1.2 ∈ utility_fields) →
    (∀ e ∈ (es.foldl (fun acc e =>
        let r := send_sensor_leaf cfg acc.1 now cid e.1.2 e.2 dn dm false Option.none
        (r.1, acc.2 ++ r.2)) (s0, evs0)).2,
      e ∈ evs0
      ∨ (∃ f val, f ∈ utility_fields
          ∧ e = Event.state ("home/rtl_devices/" ++ clean_mac cid ++ "/" ++ f) val)
      ∨ (∃ f p, f ∈ utility_fields
          ∧ e = Event.discovery ("homeassistant/" ++ "sensor" ++ "/"
              ++ (clean_mac cid ++ "_" ++ f ++ cfg.idSuffix) ++ "/config") p
          ∧ p.unique_id = clean_mac cid ++ "_" ++ f ++ cfg.idSuffix))
    ∧ (∀ k, (∀ f ∈ utility_fields, k ≠ clean_mac cid ++ "_" ++ f ++ cfg.idSuffix) →
        alistGet? (es.foldl (fun acc e =>
          let r := send_sensor_leaf cfg acc.1 now cid e.1.2 e.2 dn dm false Option.none
          (r.1, acc.2 ++ r.2)) (s0, evs0)).1.lastSent k = alistGet? s0.lastSent k) := by
  intro es
  induction es with
  | nil => intro s0 evs0 _; exact ⟨fun e he => Or.inl he, fun k _ => rfl⟩
  | cons a es ih =>
    intro s0 evs0 hes
    have ha : a.1.2 ∈ utility_fields := hes a (by simp)
    have htail : ∀ e ∈ es, e.1.2 ∈ utility_fields := fun e he => hes e (by simp [he])
    simp only [List.foldl_cons]
    have hstep := ih (send_sensor_leaf cfg s0 now cid a.1.2 a.2 dn dm false Option.none).1
      (evs0 ++ (send_sensor_leaf cfg s0 now cid a.1.2 a.2 dn dm false Option.none).2) htail
    constructor
    · intro e he
      rcases hstep.1 e he with hin | h | h
      · rcases List.mem_append.mp hin with h0 | hleaf
        · exact Or.inl h0
        · rcases (leaf_shape cfg s0 now cid a.1.2 a.2 dn dm ha).1 e hleaf with
            ⟨val, rfl⟩ | ⟨p, rfl, hu⟩
          · exact Or.inr (Or.inl ⟨a.1.2, val, ha, rfl⟩)
          · exact Or.inr (Or.inr ⟨a.1.2, p, ha, rfl, hu⟩)
      · exact Or.inr (Or.inl h)
      · exact Or.inr (Or.inr h)
    · intro k hk
      rw [hstep.2 k hk]
      exact (leaf_shape cfg s0 now cid a.1.2 a.2 dn dm ha).2 k (hk a.1.2 ha)

theorem refresh_shape (cfg : Cfg) (st : MHState) (now : ℚ) (cid dn dm : String)
    (hwf : WFUtil st = true) :
    (∀ e ∈ (_refresh_utility_entities_for_device cfg st now cid dn dm).2,
      (∃ f val, f ∈ utility_fields
          ∧ e = Event.state ("home/rtl_devices/" ++ clean_mac cid ++ "/" ++ f) val)
      ∨ (∃ f p, f ∈ utility_fields
          ∧ e = Event.discovery ("homeassistant/" ++ "sensor" ++ "/"
              ++ (clean_mac cid ++ "_" ++ f ++ cfg.idSuffix) ++ "/config") p
          ∧ p.unique_id = clean_mac cid ++ "_" ++ f ++ cfg.idSuffix))
    ∧ (∀ k, (∀ f ∈ utility_fields, k ≠ clean_mac cid ++ "_" ++ f ++ cfg.idSuffix) →
        alistGet? (_refresh_utility_entities_for_device cfg st now cid dn dm).1.lastSent k
          = alistGet? st.lastSent k) := by
  have hes : ∀ e ∈ st.utilityLastRaw.filter (fun e => e.1.1 == cid), e.1.2 ∈ utility_fields := by
    intro e he
    have hmem := List.mem_of_mem_filter he
    have := List.all_eq_true.mp hwf e hmem
    simpa [utility_fields] using this
  have h := fold_leaf_shape cfg now cid dn dm
    (st.utilityLastRaw.filter (fun e => e.1.1 == cid)) st [] hes
  unfold _refresh_utility_entities_for_device
  constructor
  · intro e he
    rcases h.1 e he with hin | hh | hh
    · simp at hin
    · exact Or.inl hh
    · exact Or.inr hh
  · exact h.2

theorem hint_not_utility (f : String) (v : Value) (h : commodityHint f v ≠ Option.none) :
    f ∉ utility_fields ∧ f ≠ "battery_ok" := by
  constructor
  · intro hf; exact h (by fin_cases hf <;> simp [commodityHint])
  · intro hb; subst hb; exact h (commodityHint_battery v)

theorem send_state_topics (cfg : Cfg) (st : MHState) (now : ℚ)
    (sid field : String) (v : Value) (dn dm : String) (rtl : Bool) (fn : Option String)
    (hwf : WFUtil st = true) :
    ∀ (t : String) (val : Value),
      Event.state t val ∈ (send_sensor cfg st now sid field v dn dm rtl fn).2 →
      ∃ s0 f, t = "home/rtl_devices/" ++ clean_mac s0 ++ "/" ++ f := by
  intro t val he
  by_cases hv : v = Value.null
  · subst hv; simp [send_sensor, sendSensorBody] at he
  by_cases hbat : field = "battery_ok"
  · subst hbat
    rcases hpb : _parse_boolish v with _ | ok
    · simp only [send_sensor, sendSensorBody, if_neg hv, commodityHint_battery,
        battery_not_utility, hpb, if_false, reduceIte] at he
      simp at he
    · simp only [send_sensor, sendSensorBody, if_neg hv, commodityHint_battery,
        battery_not_utility, hpb, if_false, reduceIte] at he
      have h2 := finishSend_event_mem _ _ _ _ _ _ _ _ _ _ _ _ _ _ _ he
      rcases h2 with h2 | ⟨p, hp⟩ | hstate
      · simp only [List.nil_append] at h2
        split at h2 <;> simp at h2
      · simp at hp
      · simp only [Event.state.injEq] at hstate
        exact ⟨sid, "battery_ok", hstate.1⟩
  · rcases hcu : commodityHint field v with _ | c
    · simp only [send_sensor, sendSensorBody, if_neg hv, hcu, hbat, if_false, reduceIte] at he
      have h2 := finishSend_event_mem _ _ _ _ _ _ _ _ _ _ _ _ _ _ _ he
      rcases h2 with h2 | ⟨p, hp⟩ | hstate
      · simp at h2
      · simp at hp
      · simp only [Event.state.injEq] at hstate
        exact ⟨sid, field, hstate.1⟩
    · have hnu := hint_not_utility field v (by rw [hcu]; simp)
      by_cases hprev : alistGet? st.commodity (clean_mac sid) ≠ some c
      · simp only [send_sensor, sendSensorBody, if_neg hv, hcu, hbat, hnu.1, hnu.2,
          if_false, if_true, reduceIte] at he
        rw [if_pos hprev] at he
        have h2 := finishSend_event_mem _ _ _ _ _ _ _ _ _ _ _ _ _ _ _ he
        rcases h2 with h2 | ⟨p, hp⟩ | hstate
        · have hsh := (refresh_shape cfg _ now (clean_mac sid) dn dm
            (by simpa [WFUtil] using hwf)).1 _ h2
          rcases hsh with ⟨f2, val2, _, heqq⟩ | ⟨f2, p2, _, heqq, _⟩
          · simp only [Event.state.injEq] at heqq
            exact ⟨clean_mac sid, f2, heqq.1⟩
          · simp at heqq
        · simp at hp
        · simp only [Event.state.injEq] at hstate
          exact ⟨sid, field, hstate.1⟩
      · rw [not_not] at hprev
        simp only [send_sensor, sendSensorBody, if_neg hv, hcu, hbat, hnu.1, hnu.2,
          if_false, if_true, reduceIte] at he
        rw [if_neg (by simp [hprev])] at he
        have h2 := finishSend_event_mem _ _ _ _ _ _ _ _ _ _ _ _ _ _ _ he
        rcases h2 with h2 | ⟨p, hp⟩ | hstate
        · simp at h2
        · simp at hp
        · simp only [Event.state.injEq] at hstate
          exact ⟨sid, field, hstate.1⟩

/-- Counterexample for C10 as stated: `send_sensor` interpolates the field
name into the state topic unsanitized, so the published topic for the field
`"a b"` contains a space — not all published topic components are free of
special characters. -/
theorem C10_counterexample :
    stateEventsTo (send_sensor cfg0 initState 0 "AA:BB" "a b" (Value.int 1) "D" "M" true
      Option.none).2 "home/rtl_devices/aabb/a b"
      = [Event.state "home/rtl_devices/aabb/a b" (Value.int 1)]
    ∧ ("home/rtl_devices/aabb/a b".data.contains ' ') = true :=
  ⟨by decide, by decide⟩

theorem finishSend_pre_subset (cfg : Cfg) (st : MHState)
    (field stt uid0 dn dm : String) (fn : Option String) (dom : String) (onoff : Bool)
    (mo : Option FieldMeta) (out : Value) (rtl : Bool) (preEvs : List Event) :
    ∀ e ∈ preEvs, e ∈ (finishSend cfg st field stt uid0 dn dm fn dom onoff mo out rtl preEvs).2 := by
  intro e he
  rw [finishSend_spec cfg st field stt uid0 dn dm fn dom onoff mo out rtl preEvs _ _ rfl rfl]
  simp [he]



theorem consumption_first_send (sid dn dm : String) (v : ℤ) (t1 : ℚ) :
    send_sensor cfg0 initState t1 sid "Consumption" (Value.int v) dn dm true Option.none
      = (consumptionState sid dn dm v,
         [Event.discovery ("homeassistant/" ++ "sensor" ++ "/"
             ++ (clean_mac sid ++ "_" ++ "Consumption" ++ cfg0.idSuffix) ++ "/config")
             (discoveryPayloadOf cfg0 "Consumption"
               ("home/rtl_devices/" ++ clean_mac sid ++ "/" ++ "Consumption")
               (clean_mac sid ++ "_" ++ "Consumption" ++ cfg0.idSuffix) dm Option.none
               "sensor" false Option.none),
          Event.state ("home/rtl_devices/" ++ clean_mac sid ++ "/" ++ "Consumption")
            (Value.int v)]) := by
  have hc1 : commodityHint "Consumption" (Value.int v) = Option.none := by
    simp [commodityHint]
  simp only [send_sensor, sendSensorBody, hc1, finishSend, _publish_discovery,
    _utility_meta_override, _utility_normalize_value, initState, alistGet?, alistSet,
    listInsert, reduceIte, if_false, if_true]
  simp [cfg0, utility_fields, consumptionState]

theorem gas_refresh_leaf_events (sid dn dm : String) (v : ℤ) (t2 : ℚ) (st' : MHState)
    (hst : st' = { consumptionState sid dn dm v with
      commodity := [(clean_mac sid, Commodity.gas)] }) :
    (send_sensor_leaf cfg0 st' t2 (clean_mac sid) "Consumption" (Value.int v) dn dm false
      Option.none).2
    = [Event.discovery ("homeassistant/" ++ "sensor" ++ "/"
          ++ (clean_mac sid ++ "_" ++ "Consumption" ++ cfg0.idSuffix) ++ "/config")
        (discoveryPayloadOf cfg0 "Consumption"
          ("home/rtl_devices/" ++ clean_mac sid ++ "/" ++ "Consumption")
          (clean_mac sid ++ "_" ++ "Consumption" ++ cfg0.idSuffix) dm Option.none
          "sensor" false (some gasFt3Meta)),
       Event.state ("home/rtl_devices/" ++ clean_mac sid ++ "/" ++ "Consumption")
         (Value.float (v : ℚ))] := by
  subst hst
  have hc1 : commodityHint "Consumption" (Value.int v) = Option.none := by
    simp [commodityHint]
  have hsigne : ∀ A B : String,
      sigOfPayload "sensor" (discoveryPayloadOf cfg0 "Consumption" A B dm Option.none
        "sensor" false Option.none)
      ≠ sigOfPayload "sensor" (discoveryPayloadOf cfg0 "Consumption" A B dm Option.none
        "sensor" false (some gasFt3Meta)) := by
    intro A B
    simp only [sigOfPayload, discoveryPayloadOf, defaultMeta, cfg0, gasFt3Meta,
      DiscoverySig.mk.injEq]
    decide
  have hgas : _utility_meta_override cfg0 [(clean_mac sid, Commodity.gas)]
      [(clean_mac sid, dm)] (clean_mac sid) "Consumption" = some gasFt3Meta := by
    simp [_utility_meta_override, alistGet?, gasFt3Meta]
    exact ⟨by decide, by decide⟩
  have hnorm : _utility_normalize_value cfg0 [(clean_mac sid, Commodity.gas)]
      [(clean_mac sid, dm)] (clean_mac sid) "Consumption" (Value.int v) dm
      = Value.float (v : ℚ) := by
    simp [_utility_normalize_value, alistGet?, utility_fields, Value.toFloat?]
    intro h
    exact absurd h (by decide)
  simp only [send_sensor_leaf, sendSensorBody, consumptionState, hc1, clean_mac_idem,
    reduceIte, if_false, if_true, alistGet?, alistSet, listInsert, utility_fields,
    List.mem_singleton, List.mem_cons, List.not_mem_nil]
  simp only [hgas, hnorm, finishSend, _publish_discovery]
  simp [hsigne ("home/rtl_devices/" ++ clean_mac sid ++ "/" ++ "Consumption")
    (clean_mac sid ++ "_" ++ "Consumption" ++ cfg0.idSuffix), alistGet?, alistSet,
    listInsert, hgas, hnorm]

/-- The concrete Consumption-then-MeterType scenario: first call publishes
the entity, the gas hint re-sends the cached reading with corrected
unit/class and converted value on the same config topic. -/
theorem consumption_gas_scenario (sid dn dm : String) (v : ℤ) (t1 t2 : ℚ) :
    (∃ p, Event.discovery ("homeassistant/" ++ "sensor" ++ "/"
        ++ (clean_mac sid ++ "_" ++ "Consumption" ++ cfg0.idSuffix) ++ "/config") p
      ∈ (send_sensor cfg0 initState t1 sid "Consumption" (Value.int v) dn dm true
          Option.none).2)
    ∧ (∃ p, Event.discovery ("homeassistant/" ++ "sensor" ++ "/"
        ++ (clean_mac sid ++ "_" ++ "Consumption" ++ cfg0.idSuffix) ++ "/config") p
      ∈ (send_sensor cfg0
          (send_sensor cfg0 initState t1 sid "Consumption" (Value.int v) dn dm true
            Option.none).1
          t2 sid "MeterType" (Value.str "Gas") dn dm true Option.none).2
      ∧ p.unit_of_measurement = some "ft³" ∧ p.device_class = some "gas")
    ∧ Event.state ("home/rtl_devices/" ++ clean_mac sid ++ "/" ++ "Consumption")
        (Value.float (v : ℚ))
      ∈ (send_sensor cfg0
          (send_sensor cfg0 initState t1 sid "Consumption" (Value.int v) dn dm true
            Option.none).1
          t2 sid "MeterType" (Value.str "Gas") dn dm true Option.none).2 := by
  have h1 := consumption_first_send sid dn dm v t1
  have hc2 : commodityHint "MeterType" (Value.str "Gas") = some Commodity.gas := by decide
  have hsub : ∀ e ∈
      [Event.discovery ("homeassistant/" ++ "sensor" ++ "/"
          ++ (clean_mac sid ++ "_" ++ "Consumption" ++ cfg0.idSuffix) ++ "/config")
          (discoveryPayloadOf cfg0 "Consumption"
            ("home/rtl_devices/" ++ clean_mac sid ++ "/" ++ "Consumption")
            (clean_mac sid ++ "_" ++ "Consumption" ++ cfg0.idSuffix) dm Option.none
            "sensor" false (some gasFt3Meta)),
        Event.state ("home/rtl_devices/" ++ clean_mac sid ++ "/" ++ "Consumption")
          (Value.float (v : ℚ))],
      e ∈ (send_sensor cfg0
          (send_sensor cfg0 initState t1 sid "Consumption" (Value.int v) dn dm true
            Option.none).1
          t2 sid "MeterType" (Value.str "Gas") dn dm true Option.none).2 := by
    intro e he
    rw [h1]
    simp only [send_sensor, sendSensorBody, hc2, consumptionState, reduceIte, if_false,
      if_true, alistGet?, alistSet, listInsert, utility_fields, List.mem_singleton,
      List.mem_cons, List.not_mem_nil]
    apply finishSend_pre_subset
    simp only [_refresh_utility_entities_for_device, List.filter, beq_self_eq_true,
      List.foldl, List.nil_append]
    rw [gas_refresh_leaf_events sid dn dm v t2 _ (by simp [consumptionState])]
    exact he
  refine ⟨⟨discoveryPayloadOf cfg0 "Consumption"
      ("home/rtl_devices/" ++ clean_mac sid ++ "/" ++ "Consumption")
      (clean_mac sid ++ "_" ++ "Consumption" ++ cfg0.idSuffix) dm Option.none
      "sensor" false Option.none, ?_⟩,
    ⟨discoveryPayloadOf cfg0 "Consumption"
      ("home/rtl_devices/" ++ clean_mac sid ++ "/" ++ "Consumption")
      (clean_mac sid ++ "_" ++ "Consumption" ++ cfg0.idSuffix) dm Option.none
      "sensor" false (some gasFt3Meta), ?_, ?_, ?_⟩, ?_⟩
  · rw [h1]; simp
  · exact hsub _ (by simp)
  · rfl
  · rfl
  · exact hsub _ (by simp)

theorem okStreakStart_append (l : List (Bool × ℚ)) (p : Bool × ℚ) :
    okStreakStart (l ++ [p]) = streakStep (okStreakStart l) p := by
  simp [okStreakStart, List.foldl_append]

theorem okStreak_decomp (l : List (Bool × ℚ)) (c : ℚ) :
    okStreakStart l = some c →
    ∃ l1 l2, l = l1 ++ ((true, c) : Bool × ℚ) :: l2 ∧ ∀ p ∈ l2, p.1 = true := by
  induction l using List.reverseRecOn with
  | nil => intro h; simp [okStreakStart] at h
  | append_singleton l p ih =>
    intro h
    rw [okStreakStart_append] at h
    rcases p with ⟨ok, t⟩
    cases ok with
    | false => simp [streakStep] at h
    | true =>
      cases hs : okStreakStart l with
      | none =>
        rw [hs] at h
        simp only [streakStep, if_pos rfl, if_true, reduceIte, Option.some.injEq] at h
        exact ⟨l, [], by simp [h], by simp⟩
      | some c2 =>
        rw [hs] at h
        simp only [streakStep, if_pos rfl, if_true, reduceIte, Option.some.injEq] at h
        obtain ⟨l1, l2, hl, hall⟩ := ih (h ▸ hs)
        refine ⟨l1, l2 ++ [(true, t)], by simp [hl], ?_⟩
        intro q hq
        rcases List.mem_append.mp hq with h2 | h2
        · exact hall q h2
        · simp only [List.mem_singleton] at h2
          simp [h2]

theorem batInv_step (ca : ℤ) (st : BatterySt) (ok : Bool) (now : ℚ) (acc : Option ℚ)
    (h1 : st.latched_low = true → st.ok_candidate_since = acc)
    (h2 : st.latched_low = false → st.ok_candidate_since = Option.none) :
    ((batteryUpdate ca st ok now).1.latched_low = true →
      (batteryUpdate ca st ok now).1.ok_candidate_since = streakStep acc (ok, now))
    ∧ ((batteryUpdate ca st ok now).1.latched_low = false →
      (batteryUpdate ca st ok now).1.ok_candidate_since = Option.none) := by
  cases ok with
  | false => simp [batteryUpdate, streakStep]
  | true =>
    cases hl : st.latched_low with
    | false =>
      simp [batteryUpdate, hl, streakStep, h2 hl]
    | true =>
      by_cases hc : ca ≤ 0 ∨ (ca : ℚ) ≤ now - st.ok_candidate_since.getD now
      · simp [batteryUpdate, hl, hc]
      · simp only [batteryUpdate, Bool.not_true, Bool.false_eq_true, if_false, hl, if_true]
        rw [if_neg hc]
        have hacc := h1 hl
        cases acc with
        | none => simp [streakStep, hacc]
        | some c => simp [streakStep, hacc]

theorem batInv_fold (ca : ℤ) :
    ∀ (l : List (Bool × ℚ)) (st : BatterySt) (acc : Option ℚ),
    (st.latched_low = true → st.ok_candidate_since = acc) →
    (st.latched_low = false → st.ok_candidate_since = Option.none) →
    ((batRunSt ca st l).latched_low = true →
      (batRunSt ca st l).ok_candidate_since = l.foldl streakStep acc)
    ∧ ((batRunSt ca st l).latched_low = false →
      (batRunSt ca st l).ok_candidate_since = Option.none)
  | [], st, acc, h1, h2 => by simpa [batRunSt] using ⟨h1, h2⟩
  | p :: rest, st, acc, h1, h2 => by
    obtain ⟨g1, g2⟩ := batInv_step ca st p.1 p.2 acc h1 h2
    have hr := batInv_fold ca rest (batteryUpdate ca st p.1 p.2).1
      (streakStep acc (p.1, p.2)) g1 g2
    simpa [batRunSt, List.foldl_cons] using hr

/-- C5: battery latch clearing discipline.  (i) A not-ok input always
(re)latches low, publishes LOW and cancels any pending clear candidate;
(ii) an ok input while latched keeps the state LOW and keeps the candidate
start time whenever the candidate has been pending for less than
`clear_after` seconds, and clears the latch (publishing OK) exactly when
`clear_after <= 0` or the candidate has been pending at least `clear_after`
seconds; (iii) with `clear_after = 0` the first ok input after a latch
clears it immediately; (iv) over any input trace, the pending candidate of
a latched state is exactly the start time of the maximal uninterrupted
trailing ok-run of the trace (and an unlatched state has no candidate), and
that start time really heads an all-ok suffix — so the state remains LOW
until ok inputs have been seen continuously for `clear_after` seconds. -/
theorem C5_battery_latch_invariant (ca : ℤ) (st : BatterySt) (now : ℚ)
    (l : List (Bool × ℚ)) :
    batteryUpdate ca st false now
      = ({ latched_low := true, last_low := some now,
           ok_candidate_since := Option.none, ok_since := Option.none }, true)
    ∧ (st.latched_low = true → 0 < ca →
        now - st.ok_candidate_since.getD now < (ca : ℚ) →
        batteryUpdate ca st true now
          = ({ latched_low := true, last_low := st.last_low,
               ok_candidate_since := some (st.ok_candidate_since.getD now),
               ok_since := st.ok_since }, true))
    ∧ (st.latched_low = true →
        (ca ≤ 0 ∨ (ca : ℚ) ≤ now - st.ok_candidate_since.getD now) →
        batteryUpdate ca st true now
          = ({ latched_low := false, last_low := st.last_low,
               ok_candidate_since := Option.none, ok_since := some now }, false))
    ∧ (st.latched_low = true →
        batteryUpdate 0 st true now
          = ({ latched_low := false, last_low := st.last_low,
               ok_candidate_since := Option.none, ok_since := some now }, false))
    ∧ (st.ok_candidate_since = Option.none →
        ((batRunSt ca st l).latched_low = true →
          (batRunSt ca st l).ok_candidate_since = okStreakStart l)
        ∧ ((batRunSt ca st l).latched_low = false →
          (batRunSt ca st l).ok_candidate_since = Option.none))
    ∧ (∀ c : ℚ, okStreakStart l = some c →
        ∃ l1 l2, l = l1 ++ ((true, c) : Bool × ℚ) :: l2 ∧ ∀ p ∈ l2, p.1 = true) := by
  refine ⟨?_, ?_, ?_, ?_, ?_, ?_⟩
  · simp [batteryUpdate]
  · intro h1 h2 h3
    have hcond : ¬(ca ≤ 0 ∨ (ca : ℚ) ≤ now - st.ok_candidate_since.getD now) := by
      push_neg
      exact ⟨h2, h3⟩
    simp only [batteryUpdate, Bool.not_true, Bool.false_eq_true, if_false, h1, if_true]
    rw [if_neg hcond]
  · intro h1 h2
    simp only [batteryUpdate, Bool.not_true, Bool.false_eq_true, if_false, h1, if_true]
    rw [if_pos h2]
  · intro h1
    simp only [batteryUpdate, Bool.not_true, Bool.false_eq_true, if_false, h1, if_true]
    rw [if_pos (Or.inl le_rfl)]
  · intro h0
    simpa [okStreakStart] using batInv_fold ca l st Option.none (fun _ => h0) (fun _ => h0)
  · intro c hc
    exact okStreak_decomp l c hc

theorem C5_witness :
    batteryUpdate 5 (BatterySt.mk true (some 0) (some 1) Option.none) false 2
      = ({ latched_low := true, last_low := some 2, ok_candidate_since := Option.none,
           ok_since := Option.none }, true)
    ∧ batteryUpdate 5 (BatterySt.mk true (some 0) (some 1) Option.none) true 2
      = ({ latched_low := true, last_low := some 0, ok_candidate_since := some 1,
           ok_since := Option.none }, true)
    ∧ batteryUpdate 5 (BatterySt.mk true (some 0) (some 1) Option.none) true 7
      = ({ latched_low := false, last_low := some 0, ok_candidate_since := Option.none,
           ok_since := some 7 }, false)
    ∧ batteryUpdate 0 (BatterySt.mk true (some 0) Option.none Option.none) true 3
      = ({ latched_low := false, last_low := some 0, ok_candidate_since := Option.none,
           ok_since := some 3 }, false)
    ∧ (batRunSt 5 batteryInit
        [(false, 0), (true, 1), (false, 2), (true, 3), (true, 4)]).ok_candidate_since
      = okStreakStart [(false, 0), (true, 1), (false, 2), (true, 3), (true, 4)]
    ∧ ∃ l1 l2, ([(false, 0), (true, 1), (false, 2), (true, 3), (true, 4)] : List (Bool × ℚ))
        = l1 ++ ((true, (3 : ℚ)) : Bool × ℚ) :: l2 ∧ ∀ p ∈ l2, p.1 = true := by
  refine ⟨?_, ?_, ?_, ?_, ?_, ?_⟩
  · exact (C5_battery_latch_invariant 5 (BatterySt.mk true (some 0) (some 1) Option.none)
      2 []).1
  · exact (C5_battery_latch_invariant 5 (BatterySt.mk true (some 0) (some 1) Option.none)
      2 []).2.1 rfl (by decide) (by with_unfolding_all decide)
  · exact (C5_battery_latch_invariant 5 (BatterySt.mk true (some 0) (some 1) Option.none)
      7 []).2.2.1 rfl (by with_unfolding_all decide)
  · exact (C5_battery_latch_invariant 0 (BatterySt.mk true (some 0) Option.none Option.none)
      3 []).2.2.2.1 rfl
  · exact ((C5_battery_latch_invariant 5 batteryInit 0
      [(false, 0), (true, 1), (false, 2), (true, 3), (true, 4)]).2.2.2.2.1 rfl).1
      (by with_unfolding_all decide)
  · exact (C5_battery_latch_invariant 5 batteryInit 0
      [(false, 0), (true, 1), (false, 2), (true, 3), (true, 4)]).2.2.2.2.2 3
      (by with_unfolding_all decide)




theorem stateEventsTo_append (a b : List Event) (t : String) :
    stateEventsTo (a ++ b) t = stateEventsTo a t ++ stateEventsTo b t := by
  simp [stateEventsTo, List.filter_append]

theorem finishSend_battery (cfg : Cfg) (st : MHState)
    (field stt uid0 dn dm : String) (fn : Option String) (dom : String) (onoff : Bool)
    (mo : Option FieldMeta) (out : Value) (rtl : Bool) (preEvs : List Event) :
    (finishSend cfg st field stt uid0 dn dm fn dom onoff mo out rtl preEvs).1.battery
      = st.battery := by
  rw [finishSend_spec cfg st field stt uid0 dn dm fn dom onoff mo out rtl preEvs _ _ rfl rfl]
  rw [publish_discovery_spec cfg st field stt uid0 dn dm fn dom onoff mo _ _ _ rfl rfl rfl]
  split <;> simp <;> split <;> rfl

theorem finishSend_state_events_rtl (cfg : Cfg) (st : MHState)
    (field stt uid0 dn dm : String) (fn : Option String) (dom : String) (onoff : Bool)
    (mo : Option FieldMeta) (out : Value) (preEvs : List Event) :
    stateEventsTo (finishSend cfg st field stt uid0 dn dm fn dom onoff mo out true preEvs).2 stt
      = stateEventsTo preEvs stt ++ [Event.state stt out] := by
  rw [finishSend_spec cfg st field stt uid0 dn dm fn dom onoff mo out true preEvs _ _ rfl rfl]
  rw [publish_discovery_spec cfg st field stt uid0 dn dm fn dom onoff mo _ _ _ rfl rfl rfl]
  simp only [Bool.or_true, if_true]
  split <;> simp [stateEventsTo, List.filter_append]

theorem send_battery_step (cfg : Cfg) (st : MHState) (now : ℚ) (sid dn dm : String)
    (v : Value) (ok : Bool) (hv : v ≠ Value.null) (hp : _parse_boolish v = some ok) :
    stateEventsTo (send_sensor cfg st now sid "battery_ok" v dn dm true Option.none).2
        ("home/rtl_devices/" ++ clean_mac sid ++ "/" ++ "battery_ok")
      = [Event.state ("home/rtl_devices/" ++ clean_mac sid ++ "/" ++ "battery_ok")
          (Value.str (if (batteryUpdate cfg.batteryClearAfter
              ((alistGet? st.battery (clean_mac sid)).getD batteryInit) ok now).2
            then "ON" else "OFF"))]
    ∧ (send_sensor cfg st now sid "battery_ok" v dn dm true Option.none).1.battery
      = alistSet st.battery (clean_mac sid)
          (batteryUpdate cfg.batteryClearAfter
            ((alistGet? st.battery (clean_mac sid)).getD batteryInit) ok now).1 := by
  simp only [send_sensor, sendSensorBody, if_neg hv, commodityHint_battery,
    battery_not_utility, hp, if_false, if_true, reduceIte]
  by_cases hmig : clean_mac sid ++ "_" ++ "battery_ok" ++ cfg.idSuffix ∈ st.migrationCleared
  · rw [if_pos hmig]
    constructor
    · rw [finishSend_state_events_rtl]
      simp [stateEventsTo]
    · rw [finishSend_battery]
  · rw [if_neg hmig]
    constructor
    · rw [finishSend_state_events_rtl]
      simp [stateEventsTo]
    · rw [finishSend_battery]

theorem runBat_battery (cfg : Cfg) (sid dn dm : String) :
    ∀ (pl : List (Bool × ℚ)) (st : MHState),
    stateEventsTo (runBat cfg sid dn dm st (boolTrace pl)).2
        ("home/rtl_devices/" ++ clean_mac sid ++ "/" ++ "battery_ok")
      = (batOuts cfg.batteryClearAfter
          ((alistGet? st.battery (clean_mac sid)).getD batteryInit) pl).map
          (fun b => Event.state ("home/rtl_devices/" ++ clean_mac sid ++ "/" ++ "battery_ok")
            (Value.str (if b then "ON" else "OFF")))
  | [], st => by simp [boolTrace, runBat, batOuts, stateEventsTo]
  | (ok, t) :: prest, st => by
    have hpv : _parse_boolish (Value.int (if ok then 1 else 0)) = some ok := by
      cases ok <;> decide
    have hvn : (Value.int (if ok then 1 else 0)) ≠ Value.null := by
      cases ok <;> decide
    obtain ⟨h1, h2⟩ := send_battery_step cfg st t sid dn dm _ ok hvn hpv
    have hrec := runBat_battery cfg sid dn dm prest
      (send_sensor cfg st t sid "battery_ok" (Value.int (if ok then 1 else 0)) dn dm
        true Option.none).1
    simp only [boolTrace, List.map_cons] at hrec ⊢
    simp only [runBat]
    rw [stateEventsTo_append, h1, hrec, h2, alistGet?_set_self]
    simp [batOuts]

theorem batteryUpdate_stay (ca : ℤ) (ll os : Option ℚ) (c now : ℚ)
    (h1 : 0 < ca) (h2 : now - c < (ca : ℚ)) :
    batteryUpdate ca (BatterySt.mk true ll (some c) os) true now
      = (BatterySt.mk true ll (some c) os, true) := by
  have hcond : ¬(ca ≤ 0 ∨ (ca : ℚ) ≤ now - Option.getD (some c) now) := by
    push_neg
    exact ⟨h1, by simpa using h2⟩
  simp only [batteryUpdate, Bool.not_true, Bool.false_eq_true, if_false, if_true]
  rw [if_neg hcond]
  simp

theorem batteryUpdate_clear (ca : ℤ) (ll os : Option ℚ) (c now : ℚ)
    (h2 : (ca : ℚ) ≤ now - c) :
    batteryUpdate ca (BatterySt.mk true ll (some c) os) true now
      = (BatterySt.mk false ll Option.none (some now), false) := by
  simp only [batteryUpdate, Bool.not_true, Bool.false_eq_true, if_false, if_true]
  rw [if_pos (Or.inr (by simpa using h2))]

theorem batteryUpdate_start (ca : ℤ) (ll os : Option ℚ) (now : ℚ) (h1 : 0 < ca) :
    batteryUpdate ca (BatterySt.mk true ll Option.none os) true now
      = (BatterySt.mk true ll (some now) os, true) := by
  have hcond : ¬(ca ≤ 0 ∨ (ca : ℚ) ≤ now - Option.getD Option.none now) := by
    push_neg
    refine ⟨h1, ?_⟩
    simp only [Option.getD_none, sub_self]
    exact_mod_cast h1
  simp only [batteryUpdate, Bool.not_true, Bool.false_eq_true, if_false, if_true]
  rw [if_neg hcond]
  simp

theorem batteryUpdate_clear0 (ca : ℤ) (ll os : Option ℚ) (now : ℚ) (h1 : ca ≤ 0) :
    batteryUpdate ca (BatterySt.mk true ll Option.none os) true now
      = (BatterySt.mk false ll Option.none (some now), false) := by
  simp only [batteryUpdate, Bool.not_true, Bool.false_eq_true, if_false, if_true]
  rw [if_pos (Or.inl h1)]

theorem okTimes_succ (t1 iv : ℚ) (k m : ℕ) :
    okTimes t1 iv k (m + 1)
      = (true, t1 + (k : ℚ) * iv) :: okTimes t1 iv (k + 1) m := by
  simp only [okTimes, List.range_succ_eq_map, List.map_cons, List.map_map, Nat.add_zero,
    List.cons.injEq, true_and, Prod.mk.injEq]
  apply List.map_congr_left
  intro i _
  simp only [Function.comp_apply, Prod.mk.injEq, true_and]
  push_cast
  ring

theorem batOuts_exact (ca iv : ℤ) (hi : 0 < iv) (ll os : Option ℚ) (t1 : ℚ) :
    ∀ (m k : ℕ), ca = ((k + m : ℕ) : ℤ) * iv →
    batOuts ca (BatterySt.mk true ll (some t1) os) (okTimes t1 (iv : ℚ) k (m + 1))
      = List.replicate m true ++ [false] := by
  intro m
  induction m with
  | zero =>
    intro k hca
    rw [okTimes_succ]
    simp only [okTimes, List.range_zero, List.map_nil]
    have hle : (ca : ℚ) ≤ (t1 + (k : ℚ) * (iv : ℚ)) - t1 := by
      rw [hca]
      push_cast
      linarith
    simp only [batOuts]
    rw [batteryUpdate_clear ca ll os t1 _ hle]
    simp
  | succ m2 ih =>
    intro k hca
    rw [okTimes_succ]
    have hivq : (0 : ℚ) < (iv : ℚ) := by exact_mod_cast hi
    have hpos : 0 < ca := by
      rw [hca]
      have hk : 0 < (k + (m2 + 1) : ℕ) := by omega
      exact mul_pos (by exact_mod_cast hk) hi
    have hlt : (t1 + (k : ℚ) * (iv : ℚ)) - t1 < (ca : ℚ) := by
      rw [hca]
      push_cast
      have hm : (0 : ℚ) ≤ (m2 : ℚ) := Nat.cast_nonneg m2
      nlinarith [hivq]
    simp only [batOuts]
    rw [batteryUpdate_stay ca ll os t1 _ hpos hlt]
    simp only
    rw [ih (k + 1) (by rw [hca]; congr 1; omega)]
    simp [List.replicate_succ]

theorem batOuts_scenario (ca iv : ℤ) (hi : 0 < iv) (t0 : ℚ) (N : ℕ) (hN : 1 ≤ N)
    (hca : ca = ((N - 1 : ℕ) : ℤ) * iv) :
    batOuts ca batteryInit ((false, t0) :: okTimes t0 (iv : ℚ) 1 N)
      = List.replicate N true ++ [false] := by
  obtain ⟨m, rfl⟩ : ∃ m, N = m + 1 := ⟨N - 1, by omega⟩
  have hfirst : batteryUpdate ca batteryInit false t0
      = (BatterySt.mk true (some t0) Option.none Option.none, true) := by
    simp [batteryUpdate, batteryInit]
  simp only [batOuts, hfirst]
  cases m with
  | zero =>
    have hca0 : ca ≤ 0 := by simp at hca; omega
    rw [okTimes_succ]
    simp only [okTimes, List.range_zero, List.map_nil, batOuts]
    rw [batteryUpdate_clear0 ca (some t0) Option.none _ hca0]
    simp
  | succ m2 =>
    have hca2 : ca = ((1 + m2 : ℕ) : ℤ) * iv := by
      rw [hca]
      congr 1
      omega
    have hpos : 0 < ca := by
      rw [hca2]
      have hk : 0 < (1 + m2 : ℕ) := by omega
      exact mul_pos (by exact_mod_cast hk) hi
    rw [okTimes_succ]
    simp only [batOuts]
    rw [batteryUpdate_start ca (some t0) Option.none _ hpos]
    simp only [Nat.cast_one]
    rw [show (1 : ℕ) + 1 = 2 from rfl]
    have hshift : okTimes t0 (iv : ℚ) 2 (m2 + 1) = okTimes (t0 + (1 : ℚ) * (iv : ℚ)) (iv : ℚ) 1 (m2 + 1) := by
      simp only [okTimes]
      apply List.map_congr_left
      intro i _
      simp only [Prod.mk.injEq, true_and]
      push_cast
      ring
    rw [hshift]
    rw [batOuts_exact ca iv hi (some t0) Option.none (t0 + (1 : ℚ) * (iv : ℚ)) m2 1 hca2]
    simp [List.replicate_succ]

theorem C4_counterexample :
    stateEventsTo (runBat { cfg0 with batteryClearAfter := 1 } "dev" "D" "M" initState
        [(0, Value.int 0), (1, Value.int 1)]).2
        ("home/rtl_devices/" ++ "dev" ++ "/" ++ "battery_ok")
      = [Event.state "home/rtl_devices/dev/battery_ok" (Value.str "ON"),
         Event.state "home/rtl_devices/dev/battery_ok" (Value.str "ON")]
    ∧ [Event.state "home/rtl_devices/dev/battery_ok" (Value.str "ON"),
       Event.state "home/rtl_devices/dev/battery_ok" (Value.str "ON")]
      ≠ [Event.state "home/rtl_devices/dev/battery_ok" (Value.str "ON"),
         Event.state "home/rtl_devices/dev/battery_ok" (Value.str "OFF")] := by
  constructor
  · with_unfolding_all decide
  · decide

/-- C4 (amended): the claim's delay is off by one interval.  The candidate
timer starts at the FIRST ok reading, so after `low` at `t0` and `N` ok
readings at `t0 + i*interval` (`i = 1..N`), the elapsed candidate time at
the `N`-th ok is `(N-1)*interval`.  With `clear_after = (N-1)*interval`
(not `N*interval` as claimed) the published battery-low state is ON for the
low reading and the first `N-1` ok readings and OFF exactly at the `N`-th:
the state-topic publishes are `replicate N ON ++ [OFF]`. -/
theorem C4_battery_latch_corrected (N : ℕ) (hN : 1 ≤ N) (iv : ℤ) (hi : 0 < iv)
    (t0 : ℚ) (cfg : Cfg) (st : MHState) (sid dn dm : String)
    (hca : cfg.batteryClearAfter = ((N - 1 : ℕ) : ℤ) * iv)
    (hbat : alistGet? st.battery (clean_mac sid) = Option.none) :
    stateEventsTo (runBat cfg sid dn dm st
        (boolTrace ((false, t0) :: okTimes t0 ((iv : ℤ) : ℚ) 1 N))).2
        ("home/rtl_devices/" ++ clean_mac sid ++ "/" ++ "battery_ok")
      = List.replicate N (Event.state ("home/rtl_devices/" ++ clean_mac sid ++ "/" ++ "battery_ok")
          (Value.str "ON"))
        ++ [Event.state ("home/rtl_devices/" ++ clean_mac sid ++ "/" ++ "battery_ok")
          (Value.str "OFF")] := by
  rw [runBat_battery]
  rw [hbat]
  simp only [Option.getD_none]
  rw [batOuts_scenario cfg.batteryClearAfter iv hi t0 N hN hca]
  simp [List.map_append, List.map_replicate]

theorem C4_witness :
    stateEventsTo (runBat { cfg0 with batteryClearAfter := 1 } "dev" "D" "M" initState
        (boolTrace ((false, 0) :: okTimes 0 ((1 : ℤ) : ℚ) 1 2))).2
        ("home/rtl_devices/" ++ clean_mac "dev" ++ "/" ++ "battery_ok")
      = List.replicate 2 (Event.state ("home/rtl_devices/" ++ clean_mac "dev" ++ "/" ++ "battery_ok")
          (Value.str "ON"))
        ++ [Event.state ("home/rtl_devices/" ++ clean_mac "dev" ++ "/" ++ "battery_ok")
          (Value.str "OFF")] :=
  C4_battery_latch_corrected 2 (by decide) 1 (by decide) 0
    { cfg0 with batteryClearAfter := 1 } initState "dev" "D" "M" (by decide) rfl

theorem send_plain_spec (cfg : Cfg) (st : MHState) (now : ℚ) (sid field : String)
    (v : Value) (dn dm : String) (rtl : Bool) (fn : Option String)
    (hv : v ≠ Value.null) (hbat : field ≠ "battery_ok")
    (hcu : commodityHint field v = Option.none) (hfu : field ∉ utility_fields) :
    send_sensor cfg st now sid field v dn dm rtl fn
      = finishSend cfg
          { st with tracked := listInsert st.tracked dn,
                    deviceModel := alistSet st.deviceModel (clean_mac sid) dm }
          field ("home/rtl_devices/" ++ clean_mac sid ++ "/" ++ field)
          (clean_mac sid ++ "_" ++ field) dn dm fn "sensor" false Option.none v rtl [] := by
  simp only [send_sensor, sendSensorBody, if_neg hv, hcu, hbat, hfu, if_false, if_true,
    reduceIte]

theorem plain_first_send (cfg : Cfg) (now : ℚ) (sid field : String)
    (v : Value) (dn dm : String) (fn : Option String)
    (hv : v ≠ Value.null) (hbat : field ≠ "battery_ok")
    (hcu : commodityHint field v = Option.none) (hfu : field ∉ utility_fields) :
    send_sensor cfg initState now sid field v dn dm false fn
      = ({ discoveryPublished := [clean_mac sid ++ "_" ++ field ++ cfg.idSuffix],
           lastSent := [(clean_mac sid ++ "_" ++ field ++ cfg.idSuffix, v)],
           tracked := [dn], migrationCleared := [], battery := [], commodity := [],
           deviceModel := [(clean_mac sid, dm)],
           utilityLastRaw := [],
           discoverySig := [(clean_mac sid ++ "_" ++ field ++ cfg.idSuffix,
             sigOfPayload "sensor" (discoveryPayloadOf cfg field
               ("home/rtl_devices/" ++ clean_mac sid ++ "/" ++ field)
               (clean_mac sid ++ "_" ++ field ++ cfg.idSuffix) dm fn "sensor" false
               Option.none))] },
         [Event.discovery ("homeassistant/" ++ "sensor" ++ "/"
             ++ (clean_mac sid ++ "_" ++ field ++ cfg.idSuffix) ++ "/config")
           (discoveryPayloadOf cfg field ("home/rtl_devices/" ++ clean_mac sid ++ "/" ++ field)
             (clean_mac sid ++ "_" ++ field ++ cfg.idSuffix) dm fn "sensor" false Option.none),
          Event.state ("home/rtl_devices/" ++ clean_mac sid ++ "/" ++ field) v]) := by
  rw [send_plain_spec cfg initState now sid field v dn dm false fn hv hbat hcu hfu]
  rw [finishSend_spec _ _ _ _ _ _ _ _ _ _ _ _ _ _ _ _ rfl rfl]
  rw [publish_discovery_spec _ _ _ _ _ _ _ _ _ _ _ _ _ _ rfl rfl rfl]
  simp [initState, alistGet?, alistSet, listInsert]

theorem plain_second_send_noop (cfg : Cfg) (now : ℚ) (sid field : String)
    (v : Value) (dn dm : String) (fn : Option String) (st' : MHState)
    (hv : v ≠ Value.null) (hbat : field ≠ "battery_ok")
    (hcu : commodityHint field v = Option.none) (hfu : field ∉ utility_fields)
    (hst : st' =
      { discoveryPublished := [clean_mac sid ++ "_" ++ field ++ cfg.idSuffix],
        lastSent := [(clean_mac sid ++ "_" ++ field ++ cfg.idSuffix, v)],
        tracked := [dn], migrationCleared := [], battery := [], commodity := [],
        deviceModel := [(clean_mac sid, dm)],
        utilityLastRaw := [],
        discoverySig := [(clean_mac sid ++ "_" ++ field ++ cfg.idSuffix,
          sigOfPayload "sensor" (discoveryPayloadOf cfg field
            ("home/rtl_devices/" ++ clean_mac sid ++ "/" ++ field)
            (clean_mac sid ++ "_" ++ field ++ cfg.idSuffix) dm fn "sensor" false
            Option.none))] }) :
    (send_sensor cfg st' now sid field v dn dm false fn).2 = [] := by
  rw [send_plain_spec cfg st' now sid field v dn dm false fn hv hbat hcu hfu]
  rw [finishSend_spec _ _ _ _ _ _ _ _ _ _ _ _ _ _ _ _ rfl rfl]
  rw [publish_discovery_spec _ _ _ _ _ _ _ _ _ _ _ _ _ _ rfl rfl rfl]
  subst hst
  simp [alistGet?, alistSet, listInsert, pyEq_refl]

theorem payload_uom (cfg : Cfg) (field stt uid dm : String) (fn : Option String)
    (hrs : strStartsWith field "radio_status" = false) :
    (discoveryPayloadOf cfg field stt uid dm fn "sensor" false Option.none).unit_of_measurement
      = (if (((cfg.getFieldMeta field dm).getD (defaultMeta field)).unit.getD "") ≠ ""
         then some (((cfg.getFieldMeta field dm).getD (defaultMeta field)).unit.getD "")
         else Option.none) := by
  simp only [discoveryPayloadOf, hrs, Bool.false_eq_true, if_false, reduceIte]
  simp

theorem uom_ne (a b : Option String) (hu : a.getD "" ≠ b.getD "") :
    (if a.getD "" ≠ "" then some (a.getD "") else Option.none)
      ≠ (if b.getD "" ≠ "" then some (b.getD "") else Option.none) := by
  by_cases h1 : a.getD "" = ""
  · by_cases h2 : b.getD "" = ""
    · exact absurd (h1.trans h2.symm) hu
    · simp [h1, h2]
  · by_cases h2 : b.getD "" = ""
    · simp [h1, h2]
    · simp only [h1, h2, if_neg, ne_eq, not_false_eq_true, if_true, Option.some.injEq]
      exact hu

theorem plain_unit_change_send (cfg : Cfg) (g2 : String → String → Option FieldMeta)
    (now : ℚ) (sid field : String) (v : Value) (dn dm : String) (fn : Option String)
    (st' : MHState)
    (hv : v ≠ Value.null) (hbat : field ≠ "battery_ok")
    (hcu : commodityHint field v = Option.none) (hfu : field ∉ utility_fields)
    (hrs : strStartsWith field "radio_status" = false)
    (hu : (((cfg.getFieldMeta field dm).getD (defaultMeta field)).unit.getD "")
        ≠ (((g2 field dm).getD (defaultMeta field)).unit.getD ""))
    (hst : st' =
      { discoveryPublished := [clean_mac sid ++ "_" ++ field ++ cfg.idSuffix],
        lastSent := [(clean_mac sid ++ "_" ++ field ++ cfg.idSuffix, v)],
        tracked := [dn], migrationCleared := [], battery := [], commodity := [],
        deviceModel := [(clean_mac sid, dm)],
        utilityLastRaw := [],
        discoverySig := [(clean_mac sid ++ "_" ++ field ++ cfg.idSuffix,
          sigOfPayload "sensor" (discoveryPayloadOf cfg field
            ("home/rtl_devices/" ++ clean_mac sid ++ "/" ++ field)
            (clean_mac sid ++ "_" ++ field ++ cfg.idSuffix) dm fn "sensor" false
            Option.none))] }) :
    (send_sensor { cfg with getFieldMeta := g2 } st' now sid field v dn dm false fn).2
      = [Event.discovery ("homeassistant/" ++ "sensor" ++ "/"
            ++ (clean_mac sid ++ "_" ++ field ++ cfg.idSuffix) ++ "/config")
          (discoveryPayloadOf { cfg with getFieldMeta := g2 } field
            ("home/rtl_devices/" ++ clean_mac sid ++ "/" ++ field)
            (clean_mac sid ++ "_" ++ field ++ cfg.idSuffix) dm fn "sensor" false
            Option.none),
         Event.state ("home/rtl_devices/" ++ clean_mac sid ++ "/" ++ field) v] := by
  have hne : sigOfPayload "sensor" (discoveryPayloadOf cfg field
        ("home/rtl_devices/" ++ clean_mac sid ++ "/" ++ field)
        (clean_mac sid ++ "_" ++ field ++ cfg.idSuffix) dm fn "sensor" false Option.none)
      ≠ sigOfPayload "sensor" (discoveryPayloadOf { cfg with getFieldMeta := g2 } field
        ("home/rtl_devices/" ++ clean_mac sid ++ "/" ++ field)
        (clean_mac sid ++ "_" ++ field ++ cfg.idSuffix) dm fn "sensor" false Option.none) := by
    intro h
    have h2 := congrArg DiscoverySig.unit h
    simp only [sigOfPayload] at h2
    rw [payload_uom cfg field _ _ dm fn hrs, payload_uom { cfg with getFieldMeta := g2 }
      field _ _ dm fn hrs] at h2
    exact uom_ne _ _ hu h2
  rw [send_plain_spec { cfg with getFieldMeta := g2 } st' now sid field v dn dm false fn
    hv hbat hcu hfu]
  rw [finishSend_spec _ _ _ _ _ _ _ _ _ _ _ _ _ _ _ _ rfl rfl]
  rw [publish_discovery_spec _ _ _ _ _ _ _ _ _ _ _ _ _ _ rfl rfl rfl]
  subst hst
  simp only [alistGet?, alistSet, listInsert]
  simp [hne]

/-- C6 (amended): discovery diffing for re-evaluation calls.  The claim's
"the second call publishes nothing" only holds when the caller does NOT set
the unconditional-publish flag (`is_rtl` defaults to `True` and then the
value is always republished — see the counterexample).  For
cache-driven calls (`is_rtl = False`) on a plain field (not `battery_ok`,
not a utility total, not a commodity hint, not `radio_status*`), starting
from a fresh instance: the first call publishes exactly one discovery and
one state message; a second identical call publishes nothing at all; and a
third call whose classifier metadata carries a different unit string
publishes exactly one additional discovery (same config topic, new unit)
plus a state republish. -/
theorem C6_discovery_diffing (cfg : Cfg) (g2 : String → String → Option FieldMeta)
    (now1 now2 now3 : ℚ) (sid field : String) (v : Value) (dn dm : String)
    (fn : Option String)
    (hv : v ≠ Value.null) (hbat : field ≠ "battery_ok")
    (hcu : commodityHint field v = Option.none) (hfu : field ∉ utility_fields)
    (hrs : strStartsWith field "radio_status" = false)
    (hu : (((cfg.getFieldMeta field dm).getD (defaultMeta field)).unit.getD "")
        ≠ (((g2 field dm).getD (defaultMeta field)).unit.getD "")) :
    ∃ p1 p3,
      (send_sensor cfg initState now1 sid field v dn dm false fn).2
        = [Event.discovery ("homeassistant/" ++ "sensor" ++ "/"
            ++ (clean_mac sid ++ "_" ++ field ++ cfg.idSuffix) ++ "/config") p1,
           Event.state ("home/rtl_devices/" ++ clean_mac sid ++ "/" ++ field) v]
      ∧ (send_sensor cfg (send_sensor cfg initState now1 sid field v dn dm false fn).1
          now2 sid field v dn dm false fn).2 = []
      ∧ (send_sensor { cfg with getFieldMeta := g2 }
          (send_sensor cfg initState now1 sid field v dn dm false fn).1
          now3 sid field v dn dm false fn).2
        = [Event.discovery ("homeassistant/" ++ "sensor" ++ "/"
            ++ (clean_mac sid ++ "_" ++ field ++ cfg.idSuffix) ++ "/config") p3,
           Event.state ("home/rtl_devices/" ++ clean_mac sid ++ "/" ++ field) v]
      ∧ p1.unit_of_measurement ≠ p3.unit_of_measurement := by
  have h1 := plain_first_send cfg now1 sid field v dn dm fn hv hbat hcu hfu
  refine ⟨discoveryPayloadOf cfg field ("home/rtl_devices/" ++ clean_mac sid ++ "/" ++ field)
      (clean_mac sid ++ "_" ++ field ++ cfg.idSuffix) dm fn "sensor" false Option.none,
    discoveryPayloadOf { cfg with getFieldMeta := g2 } field
      ("home/rtl_devices/" ++ clean_mac sid ++ "/" ++ field)
      (clean_mac sid ++ "_" ++ field ++ cfg.idSuffix) dm fn "sensor" false Option.none,
    ?_, ?_, ?_, ?_⟩
  · rw [h1]
  · exact plain_second_send_noop cfg now2 sid field v dn dm fn _ hv hbat hcu hfu
      (by rw [h1])
  · exact plain_unit_change_send cfg g2 now3 sid field v dn dm fn _ hv hbat hcu hfu hrs hu
      (by rw [h1])
  · rw [payload_uom cfg field _ _ dm fn hrs, payload_uom { cfg with getFieldMeta := g2 }
      field _ _ dm fn hrs]
    exact uom_ne _ _ hu

theorem C6_counterexample :
    (send_sensor cfg0
        (send_sensor cfg0 initState 0 "dev" "temp" (Value.int 5) "D" "M" true Option.none).1
        1 "dev" "temp" (Value.int 5) "D" "M" true Option.none).2
      = [Event.state "home/rtl_devices/dev/temp" (Value.int 5)]
    ∧ [Event.state "home/rtl_devices/dev/temp" (Value.int 5)] ≠ ([] : List Event) := by
  constructor
  · decide
  · decide

theorem C6_witness :
    ∃ p1 p3,
      (send_sensor cfg0 initState 0 "AB" "temp" (Value.int 5) "D" "M" false Option.none).2
        = [Event.discovery ("homeassistant/" ++ "sensor" ++ "/"
            ++ (clean_mac "AB" ++ "_" ++ "temp" ++ cfg0.idSuffix) ++ "/config") p1,
           Event.state ("home/rtl_devices/" ++ clean_mac "AB" ++ "/" ++ "temp") (Value.int 5)]
      ∧ (send_sensor cfg0
          (send_sensor cfg0 initState 0 "AB" "temp" (Value.int 5) "D" "M" false Option.none).1
          1 "AB" "temp" (Value.int 5) "D" "M" false Option.none).2 = []
      ∧ (send_sensor
          { cfg0 with
            getFieldMeta := fun _ _ => some (FieldMeta.mk (some "degC") "none" "mdi:eye" "Temp") }
          (send_sensor cfg0 initState 0 "AB" "temp" (Value.int 5) "D" "M" false Option.none).1
          2 "AB" "temp" (Value.int 5) "D" "M" false Option.none).2
        = [Event.discovery ("homeassistant/" ++ "sensor" ++ "/"
            ++ (clean_mac "AB" ++ "_" ++ "temp" ++ cfg0.idSuffix) ++ "/config") p3,
           Event.state ("home/rtl_devices/" ++ clean_mac "AB" ++ "/" ++ "temp") (Value.int 5)]
      ∧ p1.unit_of_measurement ≠ p3.unit_of_measurement :=
  C6_discovery_diffing cfg0
    (fun _ _ => some (FieldMeta.mk (some "degC") "none" "mdi:eye" "Temp"))
    0 1 2 "AB" "temp" (Value.int 5) "D" "M" Option.none
    (by decide) (by decide) (by decide) (by decide) (by decide) (by decide)

theorem hasDiscoveryTo_append (a b : List Event) (t : String) :
    hasDiscoveryTo (a ++ b) t = (hasDiscoveryTo a t || hasDiscoveryTo b t) := by
  simp [hasDiscoveryTo, List.any_append]

theorem finishSend_pub_spec (cfg : Cfg) (S : MHState)
    (field stt uid0 dn dm : String) (fn : Option String) (dom : String) (onoff : Bool)
    (mo : Option FieldMeta) (out : Value) (rtl : Bool) (preEvs : List Event)
    (hpre : stateEventsTo preEvs stt = [])
    (hpredisc : hasDiscoveryTo preEvs
      ("homeassistant/" ++ dom ++ "/" ++ (uid0 ++ cfg.idSuffix) ++ "/config") = false) :
    stateEventsTo (finishSend cfg S field stt uid0 dn dm fn dom onoff mo out rtl preEvs).2 stt
      = (if ((match alistGet? S.lastSent (uid0 ++ cfg.idSuffix) with
              | Option.none => true
              | some prev => ! pyEq prev out)
          || hasDiscoveryTo
              (finishSend cfg S field stt uid0 dn dm fn dom onoff mo out rtl preEvs).2
              ("homeassistant/" ++ dom ++ "/" ++ (uid0 ++ cfg.idSuffix) ++ "/config")
          || rtl) = true
        then [Event.state stt out] else [])
    ∧ alistGet? (finishSend cfg S field stt uid0 dn dm fn dom onoff mo out rtl preEvs).1.lastSent
        (uid0 ++ cfg.idSuffix)
      = (if ((match alistGet? S.lastSent (uid0 ++ cfg.idSuffix) with
              | Option.none => true
              | some prev => ! pyEq prev out)
          || hasDiscoveryTo
              (finishSend cfg S field stt uid0 dn dm fn dom onoff mo out rtl preEvs).2
              ("homeassistant/" ++ dom ++ "/" ++ (uid0 ++ cfg.idSuffix) ++ "/config")
          || rtl) = true
        then some out else alistGet? S.lastSent (uid0 ++ cfg.idSuffix)) := by
  rw [finishSend_spec cfg S field stt uid0 dn dm fn dom onoff mo out rtl preEvs _ _ rfl rfl]
  rw [publish_discovery_spec cfg S field stt uid0 dn dm fn dom onoff mo _ _ _ rfl rfl rfl]
  by_cases hc : alistGet? S.discoverySig (uid0 ++ cfg.idSuffix)
      = some (sigOfPayload dom (discoveryPayloadOf cfg field stt (uid0 ++ cfg.idSuffix) dm fn
        dom onoff mo))
  · simp only [hc, if_pos rfl, decide_eq_true hc, Bool.not_true, Bool.or_false, if_true,
      reduceIte]
    by_cases hp : ((match alistGet? S.lastSent (uid0 ++ cfg.idSuffix) with
        | Option.none => true
        | some prev => ! pyEq prev out) || false || rtl) = true
    · simp only [Bool.or_false] at hp
      simp only [hp, if_true, reduceIte, stateEventsTo_append, hasDiscoveryTo_append, hpre,
        hpredisc, hc]
      simp [stateEventsTo, hasDiscoveryTo, alistGet?_set_self, hp]
    · simp only [Bool.or_false] at hp
      simp only [hp, Bool.false_eq_true, if_false, reduceIte, stateEventsTo_append,
        hasDiscoveryTo_append, hpre, hpredisc, hc]
      simp [stateEventsTo, hasDiscoveryTo, hp]
  · simp only [hc, decide_eq_false hc, Bool.not_false, Bool.or_true, Bool.true_or, if_true,
      reduceIte, if_neg hc]
    simp only [stateEventsTo_append, hasDiscoveryTo_append, hpre, hpredisc]
    simp [stateEventsTo, hasDiscoveryTo, alistGet?_set_self]

theorem C2_case_plain (cfg : Cfg) (st : MHState) (now : ℚ) (sid field : String)
    (v : Value) (dn dm : String) (rtl : Bool) (fn : Option String)
    (hv : v ≠ Value.null) (hbat : field ≠ "battery_ok")
    (hcu : commodityHint field v = Option.none) :
    stateEventsTo (send_sensor cfg st now sid field v dn dm rtl fn).2
        ("home/rtl_devices/" ++ clean_mac sid ++ "/" ++ field)
      = (if ((match alistGet? st.lastSent (clean_mac sid ++ "_" ++ field ++ cfg.idSuffix) with
              | Option.none => true
              | some prev => ! pyEq prev (sendOutValue cfg st now sid field v dm))
          || hasDiscoveryTo (send_sensor cfg st now sid field v dn dm rtl fn).2
              ("homeassistant/" ++ "sensor" ++ "/"
                ++ (clean_mac sid ++ "_" ++ field ++ cfg.idSuffix) ++ "/config")
          || rtl) = true
        then [Event.state ("home/rtl_devices/" ++ clean_mac sid ++ "/" ++ field)
               (sendOutValue cfg st now sid field v dm)]
        else [])
    ∧ alistGet? (send_sensor cfg st now sid field v dn dm rtl fn).1.lastSent
        (clean_mac sid ++ "_" ++ field ++ cfg.idSuffix)
      = (if ((match alistGet? st.lastSent (clean_mac sid ++ "_" ++ field ++ cfg.idSuffix) with
              | Option.none => true
              | some prev => ! pyEq prev (sendOutValue cfg st now sid field v dm))
          || hasDiscoveryTo (send_sensor cfg st now sid field v dn dm rtl fn).2
              ("homeassistant/" ++ "sensor" ++ "/"
                ++ (clean_mac sid ++ "_" ++ field ++ cfg.idSuffix) ++ "/config")
          || rtl) = true
        then some (sendOutValue cfg st now sid field v dm)
        else alistGet? st.lastSent (clean_mac sid ++ "_" ++ field ++ cfg.idSuffix)) := by
  by_cases hfu : field ∈ utility_fields
  · have hsv : sendOutValue cfg st now sid field v dm
        = _utility_normalize_value cfg st.commodity
            (alistSet st.deviceModel (clean_mac sid) dm) (clean_mac sid) field v dm := by
      simp [sendOutValue, hbat, hfu]
    rw [hsv]
    simp only [send_sensor, sendSensorBody, if_neg hv, hcu, hbat, hfu, if_false, if_true,
      reduceIte]
    exact finishSend_pub_spec cfg _ field _ _ dn dm fn "sensor" false _ _ rtl []
      (by simp [stateEventsTo]) (by simp [hasDiscoveryTo])
  · have hsv : sendOutValue cfg st now sid field v dm = v := by
      simp [sendOutValue, hbat, hfu]
    rw [hsv]
    simp only [send_sensor, sendSensorBody, if_neg hv, hcu, hbat, hfu, if_false, if_true,
      reduceIte]
    exact finishSend_pub_spec cfg _ field _ _ dn dm fn "sensor" false _ _ rtl []
      (by simp [stateEventsTo]) (by simp [hasDiscoveryTo])

theorem C2_case_battery (cfg : Cfg) (st : MHState) (now : ℚ) (sid : String)
    (v : Value) (dn dm : String) (rtl : Bool) (fn : Option String) (ok : Bool)
    (hv : v ≠ Value.null) (hp : _parse_boolish v = some ok) :
    stateEventsTo (send_sensor cfg st now sid "battery_ok" v dn dm rtl fn).2
        ("home/rtl_devices/" ++ clean_mac sid ++ "/" ++ "battery_ok")
      = (if ((match alistGet? st.lastSent
                (clean_mac sid ++ "_" ++ "battery_ok" ++ cfg.idSuffix) with
              | Option.none => true
              | some prev => ! pyEq prev (sendOutValue cfg st now sid "battery_ok" v dm))
          || hasDiscoveryTo (send_sensor cfg st now sid "battery_ok" v dn dm rtl fn).2
              ("homeassistant/" ++ "binary_sensor" ++ "/"
                ++ (clean_mac sid ++ "_" ++ "battery_ok" ++ cfg.idSuffix) ++ "/config")
          || rtl) = true
        then [Event.state ("home/rtl_devices/" ++ clean_mac sid ++ "/" ++ "battery_ok")
               (sendOutValue cfg st now sid "battery_ok" v dm)]
        else [])
    ∧ alistGet? (send_sensor cfg st now sid "battery_ok" v dn dm rtl fn).1.lastSent
        (clean_mac sid ++ "_" ++ "battery_ok" ++ cfg.idSuffix)
      = (if ((match alistGet? st.lastSent
                (clean_mac sid ++ "_" ++ "battery_ok" ++ cfg.idSuffix) with
              | Option.none => true
              | some prev => ! pyEq prev (sendOutValue cfg st now sid "battery_ok" v dm))
          || hasDiscoveryTo (send_sensor cfg st now sid "battery_ok" v dn dm rtl fn).2
              ("homeassistant/" ++ "binary_sensor" ++ "/"
                ++ (clean_mac sid ++ "_" ++ "battery_ok" ++ cfg.idSuffix) ++ "/config")
          || rtl) = true
        then some (sendOutValue cfg st now sid "battery_ok" v dm)
        else alistGet? st.lastSent (clean_mac sid ++ "_" ++ "battery_ok" ++ cfg.idSuffix)) := by
  have hsv : sendOutValue cfg st now sid "battery_ok" v dm
      = Value.str (if (batteryUpdate cfg.batteryClearAfter
          ((alistGet? st.battery (clean_mac sid)).getD batteryInit) ok now).2
        then "ON" else "OFF") := by
    simp [sendOutValue, hp]
  rw [hsv]
  simp only [send_sensor, sendSensorBody, if_neg hv, commodityHint_battery,
    battery_not_utility, hp, if_false, if_true, reduceIte]
  by_cases hmig : clean_mac sid ++ "_" ++ "battery_ok" ++ cfg.idSuffix ∈ st.migrationCleared
  · rw [if_pos hmig]
    exact finishSend_pub_spec cfg _ "battery_ok" _ _ dn dm _ "binary_sensor" true _ _ rtl _
      (by simp [stateEventsTo]) (by simp [hasDiscoveryTo])
  · rw [if_neg hmig]
    exact finishSend_pub_spec cfg _ "battery_ok" _ _ dn dm _ "binary_sensor" true _ _ rtl _
      (by simp [stateEventsTo, hasDiscoveryTo]) (by simp [stateEventsTo, hasDiscoveryTo])

theorem C2_case_hint (cfg : Cfg) (st : MHState) (now : ℚ) (sid field : String)
    (v : Value) (dn dm : String) (rtl : Bool) (fn : Option String) (c : Commodity)
    (hv : v ≠ Value.null) (hcu : commodityHint field v = some c) (hwf : WFUtil st = true) :
    stateEventsTo (send_sensor cfg st now sid field v dn dm rtl fn).2
        ("home/rtl_devices/" ++ clean_mac sid ++ "/" ++ field)
      = (if ((match alistGet? st.lastSent (clean_mac sid ++ "_" ++ field ++ cfg.idSuffix) with
              | Option.none => true
              | some prev => ! pyEq prev (sendOutValue cfg st now sid field v dm))
          || hasDiscoveryTo (send_sensor cfg st now sid field v dn dm rtl fn).2
              ("homeassistant/" ++ "sensor" ++ "/"
                ++ (clean_mac sid ++ "_" ++ field ++ cfg.idSuffix) ++ "/config")
          || rtl) = true
        then [Event.state ("home/rtl_devices/" ++ clean_mac sid ++ "/" ++ field)
               (sendOutValue cfg st now sid field v dm)]
        else [])
    ∧ alistGet? (send_sensor cfg st now sid field v dn dm rtl fn).1.lastSent
        (clean_mac sid ++ "_" ++ field ++ cfg.idSuffix)
      = (if ((match alistGet? st.lastSent (clean_mac sid ++ "_" ++ field ++ cfg.idSuffix) with
              | Option.none => true
              | some prev => ! pyEq prev (sendOutValue cfg st now sid field v dm))
          || hasDiscoveryTo (send_sensor cfg st now sid field v dn dm rtl fn).2
              ("homeassistant/" ++ "sensor" ++ "/"
                ++ (clean_mac sid ++ "_" ++ field ++ cfg.idSuffix) ++ "/config")
          || rtl) = true
        then some (sendOutValue cfg st now sid field v dm)
        else alistGet? st.lastSent (clean_mac sid ++ "_" ++ field ++ cfg.idSuffix)) := by
  have hnu := hint_not_utility field v (by rw [hcu]; simp)
  have hsv : sendOutValue cfg st now sid field v dm = v := by
    simp [sendOutValue, hnu.1, hnu.2]
  rw [hsv]
  simp only [send_sensor, sendSensorBody, if_neg hv, hcu, hnu.1, hnu.2, if_false, if_true,
    reduceIte]
  by_cases hprev : alistGet? st.commodity (clean_mac sid) ≠ some c
  · rw [if_pos hprev]
    have hwf2 : WFUtil { st with
        tracked := listInsert st.tracked dn,
        deviceModel := alistSet st.deviceModel (clean_mac sid) dm,
        commodity := alistSet st.commodity (clean_mac sid) c } = true := by
      simpa [WFUtil] using hwf
    obtain ⟨hshape, hframe⟩ := refresh_shape cfg { st with
        tracked := listInsert st.tracked dn,
        deviceModel := alistSet st.deviceModel (clean_mac sid) dm,
        commodity := alistSet st.commodity (clean_mac sid) c } now (clean_mac sid) dn dm hwf2
    have hne : ∀ f ∈ utility_fields,
        clean_mac sid ++ "_" ++ field ++ cfg.idSuffix
          ≠ clean_mac (clean_mac sid) ++ "_" ++ f ++ cfg.idSuffix := by
      intro f hf heq
      rw [clean_mac_idem] at heq
      have h1 := string_append_cancel_right heq
      have h2 := string_append_cancel_left h1
      exact hnu.1 (h2 ▸ hf)
    have hpre : stateEventsTo (_refresh_utility_entities_for_device cfg { st with
        tracked := listInsert st.tracked dn,
        deviceModel := alistSet st.deviceModel (clean_mac sid) dm,
        commodity := alistSet st.commodity (clean_mac sid) c } now (clean_mac sid) dn dm).2
        ("home/rtl_devices/" ++ clean_mac sid ++ "/" ++ field) = [] := by
      rw [stateEventsTo, List.filter_eq_nil_iff]
      intro e he
      rcases hshape e he with ⟨f, val, hf, rfl⟩ | ⟨f, p, hf, rfl, _⟩
      · intro hbe
        have heq := eq_of_beq hbe
        rw [clean_mac_idem] at heq
        have h2 := string_append_cancel_left heq
        exact hnu.1 (h2 ▸ hf)
      · simp
    have hpredisc : hasDiscoveryTo (_refresh_utility_entities_for_device cfg { st with
        tracked := listInsert st.tracked dn,
        deviceModel := alistSet st.deviceModel (clean_mac sid) dm,
        commodity := alistSet st.commodity (clean_mac sid) c } now (clean_mac sid) dn dm).2
        ("homeassistant/" ++ "sensor" ++ "/"
          ++ ((clean_mac sid ++ "_" ++ field) ++ cfg.idSuffix) ++ "/config") = false := by
      rw [hasDiscoveryTo, List.any_eq_false]
      intro e he
      rcases hshape e he with ⟨f, val, hf, rfl⟩ | ⟨f, p, hf, rfl, _⟩
      · simp
      · intro hbe
        have heq := eq_of_beq hbe
        rw [clean_mac_idem] at heq
        have h1 := string_append_cancel_right heq
        have h2 := string_append_cancel_left h1
        have h3 := string_append_cancel_right h2
        have h4 := string_append_cancel_left h3
        exact hnu.1 (h4 ▸ hf)
    have h := finishSend_pub_spec cfg
      (_refresh_utility_entities_for_device cfg { st with
        tracked := listInsert st.tracked dn,
        deviceModel := alistSet st.deviceModel (clean_mac sid) dm,
        commodity := alistSet st.commodity (clean_mac sid) c } now (clean_mac sid) dn dm).1
      field ("home/rtl_devices/" ++ clean_mac sid ++ "/" ++ field)
      (clean_mac sid ++ "_" ++ field) dn dm fn "sensor" false Option.none v rtl
      (_refresh_utility_entities_for_device cfg { st with
        tracked := listInsert st.tracked dn,
        deviceModel := alistSet st.deviceModel (clean_mac sid) dm,
        commodity := alistSet st.commodity (clean_mac sid) c } now (clean_mac sid) dn dm).2
      hpre hpredisc
    rw [hframe (clean_mac sid ++ "_" ++ field ++ cfg.idSuffix) hne] at h
    exact h
  · rw [if_neg (by simpa using not_not.mp hprev)]
    exact finishSend_pub_spec cfg _ field _ _ dn dm fn "sensor" false _ _ rtl []
      (by simp [stateEventsTo]) (by simp [hasDiscoveryTo])

/-- C2 (amended): the state-publish decision of `send_sensor`.  For a
non-null value that is not an unparseable `battery_ok` reading, the state
topic receives exactly one publish of the normalized outgoing value — and
the last-sent record is updated to it — if and only if that value differs
(Python `!=`) from the last-sent record for the entity, OR a discovery
config was published to the entity's config topic during this call, OR the
caller passed the unconditional-publish flag; otherwise no state publish
occurs and the last-sent record is unchanged.  The claim's qualifier
"non-null value" is not sufficient as stated: a non-null but unparseable
`battery_ok` value publishes nothing even with the unconditional flag (see
the counterexample), hence the added parseability hypothesis. -/
theorem C2_state_publish_decision (cfg : Cfg) (st : MHState) (now : ℚ)
    (sid field : String) (v : Value) (dn dm : String) (rtl : Bool) (fn : Option String)
    (hv : v ≠ Value.null)
    (hbat : field = "battery_ok" → _parse_boolish v ≠ Option.none)
    (hwf : WFUtil st = true) :
    stateEventsTo (send_sensor cfg st now sid field v dn dm rtl fn).2
        ("home/rtl_devices/" ++ clean_mac sid ++ "/" ++ field)
      = (if ((match alistGet? st.lastSent (clean_mac sid ++ "_" ++ field ++ cfg.idSuffix) with
              | Option.none => true
              | some prev => ! pyEq prev (sendOutValue cfg st now sid field v dm))
          || hasDiscoveryTo (send_sensor cfg st now sid field v dn dm rtl fn).2
              ("homeassistant/"
                ++ (if field = "battery_ok" then "binary_sensor" else "sensor") ++ "/"
                ++ (clean_mac sid ++ "_" ++ field ++ cfg.idSuffix) ++ "/config")
          || rtl) = true
        then [Event.state ("home/rtl_devices/" ++ clean_mac sid ++ "/" ++ field)
               (sendOutValue cfg st now sid field v dm)]
        else [])
    ∧ alistGet? (send_sensor cfg st now sid field v dn dm rtl fn).1.lastSent
        (clean_mac sid ++ "_" ++ field ++ cfg.idSuffix)
      = (if ((match alistGet? st.lastSent (clean_mac sid ++ "_" ++ field ++ cfg.idSuffix) with
              | Option.none => true
              | some prev => ! pyEq prev (sendOutValue cfg st now sid field v dm))
          || hasDiscoveryTo (send_sensor cfg st now sid field v dn dm rtl fn).2
              ("homeassistant/"
                ++ (if field = "battery_ok" then "binary_sensor" else "sensor") ++ "/"
                ++ (clean_mac sid ++ "_" ++ field ++ cfg.idSuffix) ++ "/config")
          || rtl) = true
        then some (sendOutValue cfg st now sid field v dm)
        else alistGet? st.lastSent (clean_mac sid ++ "_" ++ field ++ cfg.idSuffix)) := by
  by_cases hb : field = "battery_ok"
  · subst hb
    rw [if_pos rfl]
    rcases hpo : _parse_boolish v with _ | ok
    · exact absurd hpo (hbat rfl)
    · exact C2_case_battery cfg st now sid v dn dm rtl fn ok hv hpo
  · rw [if_neg hb]
    rcases hcu : commodityHint field v with _ | c
    · exact C2_case_plain cfg st now sid field v dn dm rtl fn hv hb hcu
    · exact C2_case_hint cfg st now sid field v dn dm rtl fn c hv hcu hwf

theorem C2_counterexample :
    (send_sensor cfg0 initState 0 "dev" "battery_ok" (Value.str "garbage") "D" "M" true
      Option.none).2 = []
    ∧ Value.str "garbage" ≠ Value.null := by
  constructor
  · decide
  · decide

theorem C2_witness :
    stateEventsTo (send_sensor cfg0 initState 0 "dev" "temp" (Value.int 5) "D" "M" true
        Option.none).2
        ("home/rtl_devices/" ++ clean_mac "dev" ++ "/" ++ "temp")
      = (if ((match alistGet? initState.lastSent
                (clean_mac "dev" ++ "_" ++ "temp" ++ cfg0.idSuffix) with
              | Option.none => true
              | some prev => ! pyEq prev (sendOutValue cfg0 initState 0 "dev" "temp"
                  (Value.int 5) "M"))
          || hasDiscoveryTo (send_sensor cfg0 initState 0 "dev" "temp" (Value.int 5) "D" "M"
                true Option.none).2
              ("homeassistant/"
                ++ (if "temp" = "battery_ok" then "binary_sensor" else "sensor") ++ "/"
                ++ (clean_mac "dev" ++ "_" ++ "temp" ++ cfg0.idSuffix) ++ "/config")
          || true) = true
        then [Event.state ("home/rtl_devices/" ++ clean_mac "dev" ++ "/" ++ "temp")
               (sendOutValue cfg0 initState 0 "dev" "temp" (Value.int 5) "M")]
        else [])
    ∧ alistGet? (send_sensor cfg0 initState 0 "dev" "temp" (Value.int 5) "D" "M" true
        Option.none).1.lastSent
        (clean_mac "dev" ++ "_" ++ "temp" ++ cfg0.idSuffix)
      = (if ((match alistGet? initState.lastSent
                (clean_mac "dev" ++ "_" ++ "temp" ++ cfg0.idSuffix) with
              | Option.none => true
              | some prev => ! pyEq prev (sendOutValue cfg0 initState 0 "dev" "temp"
                  (Value.int 5) "M"))
          || hasDiscoveryTo (send_sensor cfg0 initState 0 "dev" "temp" (Value.int 5) "D" "M"
                true Option.none).2
              ("homeassistant/"
                ++ (if "temp" = "battery_ok" then "binary_sensor" else "sensor") ++ "/"
                ++ (clean_mac "dev" ++ "_" ++ "temp" ++ cfg0.idSuffix) ++ "/config")
          || true) = true
        then some (sendOutValue cfg0 initState 0 "dev" "temp" (Value.int 5) "M")
        else alistGet? initState.lastSent (clean_mac "dev" ++ "_" ++ "temp" ++ cfg0.idSuffix)) :=
  C2_state_publish_decision cfg0 initState 0 "dev" "temp" (Value.int 5) "D" "M" true
    Option.none (by decide) (by decide) (by decide)

theorem send_config_topics (cfg : Cfg) (st : MHState) (now : ℚ)
    (sid field : String) (v : Value) (dn dm : String) (rtl : Bool) (fn : Option String)
    (hwf : WFUtil st = true) :
    (∀ (t : String) (p : DiscoveryPayload),
      Event.discovery t p ∈ (send_sensor cfg st now sid field v dn dm rtl fn).2 →
      ∃ s0 f dom, p.unique_id = clean_mac s0 ++ "_" ++ f ++ cfg.idSuffix
        ∧ t = "homeassistant/" ++ dom ++ "/" ++ p.unique_id ++ "/config")
    ∧ (∀ t : String,
      Event.clearConfig t ∈ (send_sensor cfg st now sid field v dn dm rtl fn).2 →
      ∃ s0 f, t = "homeassistant/sensor/" ++ (clean_mac s0 ++ "_" ++ f ++ cfg.idSuffix)
        ++ "/config") := by
  by_cases hv : v = Value.null
  · subst hv
    constructor <;> intro t
    · intro p he
      simp [send_sensor, sendSensorBody] at he
    · intro he
      simp [send_sensor, sendSensorBody] at he
  by_cases hbat : field = "battery_ok"
  · subst hbat
    rcases hpb : _parse_boolish v with _ | ok
    · constructor <;> intro t
      · intro p he
        simp only [send_sensor, sendSensorBody, if_neg hv, commodityHint_battery,
          battery_not_utility, hpb, if_false, reduceIte] at he
        simp at he
      · intro he
        simp only [send_sensor, sendSensorBody, if_neg hv, commodityHint_battery,
          battery_not_utility, hpb, if_false, reduceIte] at he
        simp at he
    · constructor <;> intro t
      · intro p he
        simp only [send_sensor, sendSensorBody, if_neg hv, commodityHint_battery,
          battery_not_utility, hpb, if_false, reduceIte] at he
        have h2 := finishSend_event_mem2 _ _ _ _ _ _ _ _ _ _ _ _ _ _ _ he
        rcases h2 with h2 | h2 | h2
        · simp only [List.nil_append] at h2
          split at h2 <;> simp at h2
        · simp only [Event.discovery.injEq] at h2
          refine ⟨sid, "battery_ok", "binary_sensor", ?_, ?_⟩
          · rw [h2.2]
            simp [discoveryPayloadOf]
          · rw [h2.1, h2.2]
            simp [discoveryPayloadOf]
        · simp at h2
      · intro he
        simp only [send_sensor, sendSensorBody, if_neg hv, commodityHint_battery,
          battery_not_utility, hpb, if_false, reduceIte] at he
        have h2 := finishSend_event_mem2 _ _ _ _ _ _ _ _ _ _ _ _ _ _ _ he
        rcases h2 with h2 | h2 | h2
        · simp only [List.nil_append] at h2
          split at h2
          · simp at h2
          · simp only [List.mem_singleton, Event.clearConfig.injEq] at h2
            exact ⟨sid, "battery_ok", h2⟩
        · simp at h2
        · simp at h2
  · rcases hcu : commodityHint field v with _ | c
    · constructor <;> intro t
      · intro p he
        simp only [send_sensor, sendSensorBody, if_neg hv, hcu, hbat, if_false,
          reduceIte] at he
        have h2 := finishSend_event_mem2 _ _ _ _ _ _ _ _ _ _ _ _ _ _ _ he
        rcases h2 with h2 | h2 | h2
        · simp at h2
        · simp only [Event.discovery.injEq] at h2
          refine ⟨sid, field, "sensor", ?_, ?_⟩
          · rw [h2.2]
            simp [discoveryPayloadOf]
          · rw [h2.1, h2.2]
            simp [discoveryPayloadOf]
        · simp at h2
      · intro he
        simp only [send_sensor, sendSensorBody, if_neg hv, hcu, hbat, if_false,
          reduceIte] at he
        have h2 := finishSend_event_mem2 _ _ _ _ _ _ _ _ _ _ _ _ _ _ _ he
        rcases h2 with h2 | h2 | h2
        · simp at h2
        · simp at h2
        · simp at h2
    · have hnu := hint_not_utility field v (by rw [hcu]; simp)
      by_cases hprev : alistGet? st.commodity (clean_mac sid) ≠ some c
      · constructor <;> intro t
        · intro p he
          simp only [send_sensor, sendSensorBody, if_neg hv, hcu, hbat, hnu.1, hnu.2,
            if_false, if_true, reduceIte] at he
          rw [if_pos hprev] at he
          have h2 := finishSend_event_mem2 _ _ _ _ _ _ _ _ _ _ _ _ _ _ _ he
          rcases h2 with h2 | h2 | h2
          · have hsh := (refresh_shape cfg _ now (clean_mac sid) dn dm
              (by simpa [WFUtil] using hwf)).1 _ h2
            rcases hsh with ⟨f2, val2, _, heqq⟩ | ⟨f2, p2, _, heqq, hu2⟩
            · simp at heqq
            · simp only [Event.discovery.injEq] at heqq
              refine ⟨clean_mac sid, f2, "sensor", ?_, ?_⟩
              · rw [heqq.2]
                exact hu2
              · rw [heqq.1, heqq.2, hu2]
          · simp only [Event.discovery.injEq] at h2
            refine ⟨sid, field, "sensor", ?_, ?_⟩
            · rw [h2.2]
              simp [discoveryPayloadOf]
            · rw [h2.1, h2.2]
              simp [discoveryPayloadOf]
          · simp at h2
        · intro he
          simp only [send_sensor, sendSensorBody, if_neg hv, hcu, hbat, hnu.1, hnu.2,
            if_false, if_true, reduceIte] at he
          rw [if_pos hprev] at he
          have h2 := finishSend_event_mem2 _ _ _ _ _ _ _ _ _ _ _ _ _ _ _ he
          rcases h2 with h2 | h2 | h2
          · have hsh := (refresh_shape cfg _ now (clean_mac sid) dn dm
              (by simpa [WFUtil] using hwf)).1 _ h2
            rcases hsh with ⟨f2, val2, _, heqq⟩ | ⟨f2, p2, _, heqq, hu2⟩
            · simp at heqq
            · simp at heqq
          · simp at h2
          · simp at h2
      · constructor <;> intro t
        · intro p he
          simp only [send_sensor, sendSensorBody, if_neg hv, hcu, hbat, hnu.1, hnu.2,
            if_false, if_true, reduceIte] at he
          rw [if_neg (by simpa using not_not.mp hprev)] at he
          have h2 := finishSend_event_mem2 _ _ _ _ _ _ _ _ _ _ _ _ _ _ _ he
          rcases h2 with h2 | h2 | h2
          · simp at h2
          · simp only [Event.discovery.injEq] at h2
            refine ⟨sid, field, "sensor", ?_, ?_⟩
            · rw [h2.2]
              simp [discoveryPayloadOf]
            · rw [h2.1, h2.2]
              simp [discoveryPayloadOf]
          · simp at h2
        · intro he
          simp only [send_sensor, sendSensorBody, if_neg hv, hcu, hbat, hnu.1, hnu.2,
            if_false, if_true, reduceIte] at he
          rw [if_neg (by simpa using not_not.mp hprev)] at he
          have h2 := finishSend_event_mem2 _ _ _ _ _ _ _ _ _ _ _ _ _ _ _ he
          rcases h2 with h2 | h2 | h2
          · simp at h2
          · simp at h2
          · simp at h2

/-- C10 (amended): `clean_mac` maps every (stringified) input to a non-empty
string of lowercase ASCII letters and digits, with inputs containing no
alphanumeric character mapping to `"unknown"`; and `send_sensor` derives the
device segment of every published identifier from this sanitized id: every
state topic has the shape `home/rtl_devices/<clean_mac image>/<field>`,
every discovery publish carries a `unique_id` of the shape
`<clean_mac image>_<field><suffix>` and goes to the config topic
`homeassistant/<domain>/<unique_id>/config`, and every config-clearing
publish targets a config topic of the same shape.  (The trailing field
segment is interpolated unsanitized, so the claim's "all published topic
components are free of special characters" does not hold; see the
counterexample.) -/
theorem C10_sanitized_device_ids :
    (∀ s : String, clean_mac s ≠ "" ∧ ∀ c ∈ (clean_mac s).data, isLowerAlnum c = true)
    ∧ (∀ s : String, (∀ c ∈ s.data, isAsciiAlnum c = false) → clean_mac s = "unknown")
    ∧ (∀ (cfg : Cfg) (st : MHState) (now : ℚ) (sid field : String) (v : Value)
        (dn dm : String) (rtl : Bool) (fn : Option String) (t : String) (val : Value),
        WFUtil st = true →
        Event.state t val ∈ (send_sensor cfg st now sid field v dn dm rtl fn).2 →
        ∃ s0 f, t = "home/rtl_devices/" ++ clean_mac s0 ++ "/" ++ f)
    ∧ (∀ (cfg : Cfg) (st : MHState) (now : ℚ) (sid field : String) (v : Value)
        (dn dm : String) (rtl : Bool) (fn : Option String) (t : String)
        (p : DiscoveryPayload),
        WFUtil st = true →
        Event.discovery t p ∈ (send_sensor cfg st now sid field v dn dm rtl fn).2 →
        ∃ s0 f dom, p.unique_id = clean_mac s0 ++ "_" ++ f ++ cfg.idSuffix
          ∧ t = "homeassistant/" ++ dom ++ "/" ++ p.unique_id ++ "/config")
    ∧ (∀ (cfg : Cfg) (st : MHState) (now : ℚ) (sid field : String) (v : Value)
        (dn dm : String) (rtl : Bool) (fn : Option String) (t : String),
        WFUtil st = true →
        Event.clearConfig t ∈ (send_sensor cfg st now sid field v dn dm rtl fn).2 →
        ∃ s0 f, t = "homeassistant/sensor/" ++ (clean_mac s0 ++ "_" ++ f ++ cfg.idSuffix)
          ++ "/config") :=
  ⟨fun s => ⟨clean_mac_ne_empty s, clean_mac_chars s⟩,
   clean_mac_unknown,
   fun cfg st now sid field v dn dm rtl fn t val hwf hmem =>
     send_state_topics cfg st now sid field v dn dm rtl fn hwf t val hmem,
   fun cfg st now sid field v dn dm rtl fn t p hwf hmem =>
     (send_config_topics cfg st now sid field v dn dm rtl fn hwf).1 t p hmem,
   fun cfg st now sid field v dn dm rtl fn t hwf hmem =>
     (send_config_topics cfg st now sid field v dn dm rtl fn hwf).2 t hmem⟩

/-- Witness for C10: concrete instances of each conjunct. -/
theorem C10_witness :
    clean_mac "AA:BB-01" ≠ ""
    ∧ clean_mac "@@@" = "unknown"
    ∧ (∃ s0 f, "home/rtl_devices/aabb01/temp"
        = "home/rtl_devices/" ++ clean_mac s0 ++ "/" ++ f)
    ∧ (∃ s0 f dom,
        (discoveryPayloadOf cfg0 "temp" "home/rtl_devices/aabb01/temp" "aabb01_temp" "M"
          Option.none "sensor" false Option.none).unique_id
          = clean_mac s0 ++ "_" ++ f ++ cfg0.idSuffix
        ∧ "homeassistant/sensor/aabb01_temp/config"
          = "homeassistant/" ++ dom ++ "/"
            ++ (discoveryPayloadOf cfg0 "temp" "home/rtl_devices/aabb01/temp" "aabb01_temp"
              "M" Option.none "sensor" false Option.none).unique_id ++ "/config")
    ∧ (∃ s0 f, "homeassistant/sensor/dev_battery_ok/config"
        = "homeassistant/sensor/" ++ (clean_mac s0 ++ "_" ++ f ++ cfg0.idSuffix)
          ++ "/config") :=
  ⟨(C10_sanitized_device_ids.1 "AA:BB-01").1,
   C10_sanitized_device_ids.2.1 "@@@" (by decide),
   C10_sanitized_device_ids.2.2.1 cfg0 initState 0 "AA:BB-01" "temp" (Value.int 1) "D" "M"
     true Option.none "home/rtl_devices/aabb01/temp" (Value.int 1) (by decide) (by decide),
   C10_sanitized_device_ids.2.2.2.1 cfg0 initState 0 "AA:BB-01" "temp" (Value.int 1) "D" "M"
     true Option.none "homeassistant/sensor/aabb01_temp/config"
     (discoveryPayloadOf cfg0 "temp" "home/rtl_devices/aabb01/temp" "aabb01_temp" "M"
       Option.none "sensor" false Option.none) (by decide) (by decide),
   C10_sanitized_device_ids.2.2.2.2 cfg0 initState 0 "dev" "battery_ok" (Value.int 1) "D" "M"
     true Option.none "homeassistant/sensor/dev_battery_ok/config" (by decide) (by decide)⟩

theorem alistSet_idem {κ α : Type} [DecidableEq κ] (m : List (κ × α)) (k : κ) (v : α) :
    alistSet (alistSet m k v) k v = alistSet m k v := by
  induction m with
  | nil => simp [alistSet]
  | cons p rest ih =>
    by_cases h : p.1 = k
    · simp [alistSet, h]
    · simp [alistSet, h, ih]

theorem uid_ne (cid sfx f g : String) (h : f ≠ g) :
    cid ++ "_" ++ f ++ sfx ≠ cid ++ "_" ++ g ++ sfx := fun he =>
  h (string_append_cancel_left (string_append_cancel_right he))

theorem nodup_filter_fields (l : List ((String × String) × Value)) (cid : String)
    (h : (l.map Prod.fst).Nodup) :
    ((l.filter (fun e => e.1.1 == cid)).map (fun e => e.1.2)).Nodup := by
  have hsub : (l.filter (fun e => e.1.1 == cid)).Sublist l := List.filter_sublist l
  have h1 : ((l.filter (fun e => e.1.1 == cid)).map Prod.fst).Nodup :=
    (hsub.map Prod.fst).nodup h
  have h2 := List.pairwise_map.mp h1
  apply List.pairwise_map.mpr
  refine List.Pairwise.imp_of_mem ?_ h2
  intro a b ha hb hne hab
  apply hne
  have ha1 : a.1.1 = cid := by simpa using (List.mem_filter.mp ha).2
  have hb1 : b.1.1 = cid := by simpa using (List.mem_filter.mp hb).2
  have : a.1 = (cid, a.1.2) := by rw [← ha1]
  rw [this, hab, ← hb1]

theorem finishSend_discovery_mem (cfg : Cfg) (st : MHState)
    (field stt uid0 dn dm : String) (fn : Option String) (dom : String) (onoff : Bool)
    (mo : Option FieldMeta) (out : Value) (rtl : Bool) (preEvs : List Event)
    (hne : alistGet? st.discoverySig (uid0 ++ cfg.idSuffix)
      ≠ some (sigOfPayload dom (discoveryPayloadOf cfg field stt (uid0 ++ cfg.idSuffix)
        dm fn dom onoff mo))) :
    Event.discovery ("homeassistant/" ++ dom ++ "/" ++ (uid0 ++ cfg.idSuffix) ++ "/config")
      (discoveryPayloadOf cfg field stt (uid0 ++ cfg.idSuffix) dm fn dom onoff mo)
      ∈ (finishSend cfg st field stt uid0 dn dm fn dom onoff mo out rtl preEvs).2 := by
  rw [finishSend_spec cfg st field stt uid0 dn dm fn dom onoff mo out rtl preEvs _ _ rfl rfl]
  rw [publish_discovery_spec cfg st field stt uid0 dn dm fn dom onoff mo _ _ _ rfl rfl rfl]
  simp only [List.mem_append]
  refine Or.inl (Or.inr ?_)
  rw [if_neg hne]
  simp

theorem finishSend_state_mem (cfg : Cfg) (st : MHState)
    (field stt uid0 dn dm : String) (fn : Option String) (dom : String) (onoff : Bool)
    (mo : Option FieldMeta) (out : Value) (rtl : Bool) (preEvs : List Event)
    (hpub : (match alistGet? st.lastSent (uid0 ++ cfg.idSuffix) with
        | Option.none => true
        | some prev => ! pyEq prev out) = true
      ∨ alistGet? st.discoverySig (uid0 ++ cfg.idSuffix)
          ≠ some (sigOfPayload dom (discoveryPayloadOf cfg field stt (uid0 ++ cfg.idSuffix)
            dm fn dom onoff mo))
      ∨ rtl = true) :
    Event.state stt out
      ∈ (finishSend cfg st field stt uid0 dn dm fn dom onoff mo out rtl preEvs).2 := by
  rw [finishSend_spec cfg st field stt uid0 dn dm fn dom onoff mo out rtl preEvs _ _ rfl rfl]
  rw [publish_discovery_spec cfg st field stt uid0 dn dm fn dom onoff mo _ _ _ rfl rfl rfl]
  rcases hpub with hm | hne | hr
  · rw [hm]
    simp
  · rw [decide_eq_false hne]
    simp
  · rw [hr]
    simp

theorem finishSend_misc_frame (cfg : Cfg) (st : MHState)
    (field stt uid0 dn dm : String) (fn : Option String) (dom : String) (onoff : Bool)
    (mo : Option FieldMeta) (out : Value) (rtl : Bool) (preEvs : List Event) :
    (finishSend cfg st field stt uid0 dn dm fn dom onoff mo out rtl preEvs).1.commodity
      = st.commodity
    ∧ (finishSend cfg st field stt uid0 dn dm fn dom onoff mo out rtl preEvs).1.deviceModel
      = st.deviceModel
    ∧ (∀ k, k ≠ uid0 ++ cfg.idSuffix →
        alistGet? (finishSend cfg st field stt uid0 dn dm fn dom onoff mo
          out rtl preEvs).1.discoverySig k = alistGet? st.discoverySig k) := by
  rw [finishSend_spec cfg st field stt uid0 dn dm fn dom onoff mo out rtl preEvs _ _ rfl rfl]
  rw [publish_discovery_spec cfg st field stt uid0 dn dm fn dom onoff mo _ _ _ rfl rfl rfl]
  refine ⟨?_, ?_, ?_⟩
  · split <;> split <;> rfl
  · split <;> split <;> rfl
  · intro k hk
    split <;> split <;> simp [alistGet?_set_ne _ _ _ _ (Ne.symm hk)]

theorem leaf_precise (cfg : Cfg) (acc : MHState) (now : ℚ) (cid f : String) (rv : Value)
    (dn dm : String) (hf : f ∈ utility_fields) (hrv : rv ≠ Value.null)
    (hcid : clean_mac cid = cid) :
    (alistGet? acc.discoverySig (cid ++ "_" ++ f ++ cfg.idSuffix)
        ≠ some (utilSig cfg acc.commodity (alistSet acc.deviceModel cid dm) cid f dm) →
      Event.discovery ("homeassistant/" ++ "sensor" ++ "/"
          ++ (cid ++ "_" ++ f ++ cfg.idSuffix) ++ "/config")
        (utilPayload cfg acc.commodity (alistSet acc.deviceModel cid dm) cid f dm)
        ∈ (send_sensor_leaf cfg acc now cid f rv dn dm false Option.none).2)
    ∧ ((match alistGet? acc.lastSent (cid ++ "_" ++ f ++ cfg.idSuffix) with
          | Option.none => true
          | some prev => ! pyEq prev (_utility_normalize_value cfg acc.commodity
              (alistSet acc.deviceModel cid dm) cid f rv dm)) = true
        ∨ alistGet? acc.discoverySig (cid ++ "_" ++ f ++ cfg.idSuffix)
          ≠ some (utilSig cfg acc.commodity (alistSet acc.deviceModel cid dm) cid f dm) →
      Event.state ("home/rtl_devices/" ++ cid ++ "/" ++ f)
        (_utility_normalize_value cfg acc.commodity (alistSet acc.deviceModel cid dm)
          cid f rv dm)
        ∈ (send_sensor_leaf cfg acc now cid f rv dn dm false Option.none).2)
    ∧ (send_sensor_leaf cfg acc now cid f rv dn dm false Option.none).1.commodity
      = acc.commodity
    ∧ (send_sensor_leaf cfg acc now cid f rv dn dm false Option.none).1.deviceModel
      = alistSet acc.deviceModel cid dm
    ∧ (∀ k, k ≠ cid ++ "_" ++ f ++ cfg.idSuffix →
        alistGet? (send_sensor_leaf cfg acc now cid f rv dn dm false
          Option.none).1.discoverySig k = alistGet? acc.discoverySig k)
    ∧ (∀ k, k ≠ cid ++ "_" ++ f ++ cfg.idSuffix →
        alistGet? (send_sensor_leaf cfg acc now cid f rv dn dm false
          Option.none).1.lastSent k = alistGet? acc.lastSent k) := by
  have hfb : f ≠ "battery_ok" := by fin_cases hf <;> decide
  have hhint : commodityHint f rv = Option.none := by
    fin_cases hf <;> simp [commodityHint]
  simp only [send_sensor_leaf, sendSensorBody, if_neg hrv, hhint, hf, hfb, if_true,
    if_false, reduceIte, hcid, utilSig, utilPayload]
  refine ⟨?_, ?_, ?_, ?_, ?_, ?_⟩
  · intro hne
    exact finishSend_discovery_mem _ _ _ _ _ _ _ _ _ _ _ _ _ _ hne
  · intro hpub
    exact finishSend_state_mem _ _ _ _ _ _ _ _ _ _ _ _ _ _
      (by rcases hpub with hm | hne
          · exact Or.inl hm
          · exact Or.inr (Or.inl hne))
  · exact (finishSend_misc_frame _ _ _ _ _ _ _ _ _ _ _ _ _ _).1
  · exact (finishSend_misc_frame _ _ _ _ _ _ _ _ _ _ _ _ _ _).2.1
  · exact (finishSend_misc_frame _ _ _ _ _ _ _ _ _ _ _ _ _ _).2.2
  · intro k hk
    exact finishSend_lastSent_frame _ _ _ _ _ _ _ _ _ _ _ _ _ _ k hk

theorem fold_leaf_events_mono (cfg : Cfg) (now : ℚ) (cid dn dm : String) :
    ∀ (es : List ((String × String) × Value)) (s : MHState) (evs : List Event),
    ∃ t, (es.foldl (fun acc e =>
        let r := send_sensor_leaf cfg acc.1 now cid e.1.2 e.2 dn dm false Option.none
        (r.1, acc.2 ++ r.2)) (s, evs)).2 = evs ++ t
  | [], s, evs => ⟨[], by simp⟩
  | a :: es, s, evs => by
    obtain ⟨t, ht⟩ := fold_leaf_events_mono cfg now cid dn dm es
      (send_sensor_leaf cfg s now cid a.1.2 a.2 dn dm false Option.none).1
      (evs ++ (send_sensor_leaf cfg s now cid a.1.2 a.2 dn dm false Option.none).2)
    refine ⟨(send_sensor_leaf cfg s now cid a.1.2 a.2 dn dm false Option.none).2 ++ t, ?_⟩
    simp only [List.foldl_cons]
    rw [ht, List.append_assoc]

theorem fold_leaf_precise (cfg : Cfg) (now : ℚ) (cid dn dm : String)
    (hcid : clean_mac cid = cid)
    (COM : List (String × Commodity)) (DMM : List (String × String))
    (hdmm : alistSet DMM cid dm = DMM)
    (S0sig : List (String × DiscoverySig)) (S0last : List (String × Value)) :
    ∀ (es : List ((String × String) × Value)) (acc : MHState) (evs0 : List Event),
    (∀ e ∈ es, e.1.2 ∈ utility_fields) →
    (es.map (fun e => e.1.2)).Nodup →
    acc.commodity = COM →
    acc.deviceModel = DMM →
    (∀ e ∈ es, alistGet? acc.discoverySig (cid ++ "_" ++ e.1.2 ++ cfg.idSuffix)
      = alistGet? S0sig (cid ++ "_" ++ e.1.2 ++ cfg.idSuffix)) →
    (∀ e ∈ es, alistGet? acc.lastSent (cid ++ "_" ++ e.1.2 ++ cfg.idSuffix)
      = alistGet? S0last (cid ++ "_" ++ e.1.2 ++ cfg.idSuffix)) →
    ∀ e ∈ es, e.2 ≠ Value.null →
      (alistGet? S0sig (cid ++ "_" ++ e.1.2 ++ cfg.idSuffix)
          ≠ some (utilSig cfg COM DMM cid e.1.2 dm) →
        Event.discovery ("homeassistant/" ++ "sensor" ++ "/"
            ++ (cid ++ "_" ++ e.1.2 ++ cfg.idSuffix) ++ "/config")
          (utilPayload cfg COM DMM cid e.1.2 dm)
          ∈ (es.foldl (fun acc2 p =>
              let r := send_sensor_leaf cfg acc2.1 now cid p.1.2 p.2 dn dm false Option.none
              (r.1, acc2.2 ++ r.2)) (acc, evs0)).2)
      ∧ ((match alistGet? S0last (cid ++ "_" ++ e.1.2 ++ cfg.idSuffix) with
            | Option.none => true
            | some prev => ! pyEq prev (_utility_normalize_value cfg COM DMM cid e.1.2
                e.2 dm)) = true
          ∨ alistGet? S0sig (cid ++ "_" ++ e.1.2 ++ cfg.idSuffix)
            ≠ some (utilSig cfg COM DMM cid e.1.2 dm) →
        Event.state ("home/rtl_devices/" ++ cid ++ "/" ++ e.1.2)
          (_utility_normalize_value cfg COM DMM cid e.1.2 e.2 dm)
          ∈ (es.foldl (fun acc2 p =>
              let r := send_sensor_leaf cfg acc2.1 now cid p.1.2 p.2 dn dm false Option.none
              (r.1, acc2.2 ++ r.2)) (acc, evs0)).2)
  | [], acc, evs0, _, _, _, _, _, _ => by
    intro e he
    simp at he
  | a :: es, acc, evs0, hes, hnd, hcom, hdm, hsig, hlast => by
    have ha : a.1.2 ∈ utility_fields := hes a (by simp)
    have hnd' : (es.map (fun e => e.1.2)).Nodup := (List.nodup_cons.mp hnd).2
    have hanotin : a.1.2 ∉ es.map (fun e => e.1.2) := (List.nodup_cons.mp hnd).1
    intro e he hrv
    by_cases hanull : a.2 = Value.null
    · rcases List.mem_cons.mp he with rfl | he2
      · exact absurd hanull hrv
      · have hr : send_sensor_leaf cfg acc now cid a.1.2 a.2 dn dm false Option.none
            = (acc, []) := by
          rw [hanull]
          simp [send_sensor_leaf, sendSensorBody]
        simp only [List.foldl_cons, hr, List.append_nil]
        exact fold_leaf_precise cfg now cid dn dm hcid COM DMM hdmm S0sig S0last es acc evs0
          (fun p hp => hes p (by simp [hp])) hnd' hcom hdm
          (fun p hp => hsig p (by simp [hp])) (fun p hp => hlast p (by simp [hp]))
          e he2 hrv
    · obtain ⟨l1, l2, l3, l4, l5, l6⟩ :=
        leaf_precise cfg acc now cid a.1.2 a.2 dn dm ha hanull hcid
      rw [hcom, hdm, hdmm] at l1 l2
      rcases List.mem_cons.mp he with rfl | he2
      · rw [hsig e (by simp)] at l1 l2
        rw [hlast e (by simp)] at l2
        obtain ⟨t, ht⟩ := fold_leaf_events_mono cfg now cid dn dm es
          (send_sensor_leaf cfg acc now cid e.1.2 e.2 dn dm false Option.none).1
          (evs0 ++ (send_sensor_leaf cfg acc now cid e.1.2 e.2 dn dm false Option.none).2)
        constructor
        · intro hne
          have hmem := l1 hne
          simp only [List.foldl_cons]
          rw [ht]
          exact List.mem_append.mpr (Or.inl (List.mem_append.mpr (Or.inr hmem)))
        · intro hpub
          have hmem := l2 hpub
          simp only [List.foldl_cons]
          rw [ht]
          exact List.mem_append.mpr (Or.inl (List.mem_append.mpr (Or.inr hmem)))
      · have hfne : ∀ p, p ∈ es → p.1.2 ≠ a.1.2 := fun p hp hh =>
          hanotin (hh ▸ List.mem_map_of_mem (fun x => x.1.2) hp)
        simp only [List.foldl_cons]
        exact fold_leaf_precise cfg now cid dn dm hcid COM DMM hdmm S0sig S0last es
          (send_sensor_leaf cfg acc now cid a.1.2 a.2 dn dm false Option.none).1
          (evs0 ++ (send_sensor_leaf cfg acc now cid a.1.2 a.2 dn dm false Option.none).2)
          (fun p hp => hes p (by simp [hp])) hnd'
          (l3.trans hcom)
          (by rw [l4, hdm, hdmm])
          (fun p hp => by
            rw [l5 _ (uid_ne cid cfg.idSuffix p.1.2 a.1.2 (hfne p hp))]
            exact hsig p (by simp [hp]))
          (fun p hp => by
            rw [l6 _ (uid_ne cid cfg.idSuffix p.1.2 a.1.2 (hfne p hp))]
            exact hlast p (by simp [hp]))
          e he2 hrv

/-- C3: commodity retroactivity.  (i) Every hint family triggers the
commodity classifier: `ert_type`/`ertType`/`ERTType` via numeric ERT codes,
`MeterType`/`meter_type` textually, and `type`/`Type` textually or
numerically.  (ii) Universally: whenever a hint field changes the stored
commodity of a device (any transition, unknown-to-known included),
`send_sensor` re-runs every cached raw utility reading of that device
through the full classify/normalize/publish path with `is_rtl = False`:
for each cached entry, if the commodity-corrected discovery signature
differs from the stored one then the corrected discovery config — with the
entity's unchanged `unique_id` — is published, and if moreover the
normalized value differs from the last-sent value or the signature
differs, the converted state value is published.  (iii) Concretely
(`config.py`/`field_meta.py` are external to the verified sources and
modelled per the spec as the neutral `cfg0`): `Consumption = v` then
`MeterType = "Gas"` republishes the entity's discovery on the same config
topic with unit `ft³` and device class `gas`, and its state with the
converted float value. -/
theorem C3_commodity_retroactive_refresh :
    (commodityHint "ert_type" (Value.int 12) = some Commodity.gas
      ∧ commodityHint "ertType" (Value.int 7) = some Commodity.electric
      ∧ commodityHint "ERTType" (Value.int 11) = some Commodity.water
      ∧ commodityHint "MeterType" (Value.str "Gas") = some Commodity.gas
      ∧ commodityHint "meter_type" (Value.str "water") = some Commodity.water
      ∧ commodityHint "type" (Value.str "Electric") = some Commodity.electric
      ∧ commodityHint "Type" (Value.int 3) = some Commodity.water)
    ∧ (∀ (cfg : Cfg) (st : MHState) (now : ℚ) (sid field : String) (v : Value)
        (dn dm : String) (rtl : Bool) (fn : Option String) (c : Commodity),
        v ≠ Value.null →
        commodityHint field v = some c →
        alistGet? st.commodity (clean_mac sid) ≠ some c →
        WFUtil st = true →
        (st.utilityLastRaw.map Prod.fst).Nodup →
        ∀ e ∈ st.utilityLastRaw, e.1.1 = clean_mac sid → e.2 ≠ Value.null →
          (alistGet? st.discoverySig (clean_mac sid ++ "_" ++ e.1.2 ++ cfg.idSuffix)
              ≠ some (utilSig cfg (alistSet st.commodity (clean_mac sid) c)
                (alistSet st.deviceModel (clean_mac sid) dm) (clean_mac sid) e.1.2 dm) →
            Event.discovery ("homeassistant/" ++ "sensor" ++ "/"
                ++ (clean_mac sid ++ "_" ++ e.1.2 ++ cfg.idSuffix) ++ "/config")
              (utilPayload cfg (alistSet st.commodity (clean_mac sid) c)
                (alistSet st.deviceModel (clean_mac sid) dm) (clean_mac sid) e.1.2 dm)
              ∈ (send_sensor cfg st now sid field v dn dm rtl fn).2)
          ∧ ((match alistGet? st.lastSent (clean_mac sid ++ "_" ++ e.1.2 ++ cfg.idSuffix)
                with
                | Option.none => true
                | some prev => ! pyEq prev (_utility_normalize_value cfg
                    (alistSet st.commodity (clean_mac sid) c)
                    (alistSet st.deviceModel (clean_mac sid) dm) (clean_mac sid) e.1.2
                    e.2 dm)) = true
              ∨ alistGet? st.discoverySig (clean_mac sid ++ "_" ++ e.1.2 ++ cfg.idSuffix)
                ≠ some (utilSig cfg (alistSet st.commodity (clean_mac sid) c)
                  (alistSet st.deviceModel (clean_mac sid) dm) (clean_mac sid) e.1.2 dm) →
            Event.state ("home/rtl_devices/" ++ clean_mac sid ++ "/" ++ e.1.2)
              (_utility_normalize_value cfg (alistSet st.commodity (clean_mac sid) c)
                (alistSet st.deviceModel (clean_mac sid) dm) (clean_mac sid) e.1.2 e.2 dm)
              ∈ (send_sensor cfg st now sid field v dn dm rtl fn).2))
    ∧ (∀ (sid dn dm : String) (v : ℤ) (t1 t2 : ℚ),
        (∃ p, Event.discovery ("homeassistant/" ++ "sensor" ++ "/"
            ++ (clean_mac sid ++ "_" ++ "Consumption" ++ cfg0.idSuffix) ++ "/config") p
          ∈ (send_sensor cfg0 initState t1 sid "Consumption" (Value.int v) dn dm true
              Option.none).2)
        ∧ (∃ p, Event.discovery ("homeassistant/" ++ "sensor" ++ "/"
            ++ (clean_mac sid ++ "_" ++ "Consumption" ++ cfg0.idSuffix) ++ "/config") p
          ∈ (send_sensor cfg0
              (send_sensor cfg0 initState t1 sid "Consumption" (Value.int v) dn dm true
                Option.none).1
              t2 sid "MeterType" (Value.str "Gas") dn dm true Option.none).2
          ∧ p.unit_of_measurement = some "ft³" ∧ p.device_class = some "gas")
        ∧ Event.state ("home/rtl_devices/" ++ clean_mac sid ++ "/" ++ "Consumption")
            (Value.float (v : ℚ))
          ∈ (send_sensor cfg0
              (send_sensor cfg0 initState t1 sid "Consumption" (Value.int v) dn dm true
                Option.none).1
              t2 sid "MeterType" (Value.str "Gas") dn dm true Option.none).2) := by
  refine ⟨⟨by decide, by decide, by decide, by decide, by decide, by decide, by decide⟩,
    ?_, fun sid dn dm v t1 t2 => consumption_gas_scenario sid dn dm v t1 t2⟩
  intro cfg st now sid field v dn dm rtl fn c hv hcu hprev hwf hnodup e he hecid hrv
  have hnu := hint_not_utility field v (by rw [hcu]; simp)
  have hes : ∀ p ∈ st.utilityLastRaw.filter (fun e2 => e2.1.1 == clean_mac sid),
      p.1.2 ∈ utility_fields := by
    intro p hp
    have hm := List.mem_of_mem_filter hp
    have := List.all_eq_true.mp hwf p hm
    simpa [utility_fields] using this
  have hfold := fold_leaf_precise cfg now (clean_mac sid) dn dm (clean_mac_idem sid)
    (alistSet st.commodity (clean_mac sid) c) (alistSet st.deviceModel (clean_mac sid) dm)
    (alistSet_idem _ _ _) st.discoverySig st.lastSent
    (st.utilityLastRaw.filter (fun e2 => e2.1.1 == clean_mac sid))
    ({ st with
        tracked := listInsert st.tracked dn,
        deviceModel := alistSet st.deviceModel (clean_mac sid) dm,
        commodity := alistSet st.commodity (clean_mac sid) c }) []
    hes (nodup_filter_fields st.utilityLastRaw (clean_mac sid) hnodup) rfl rfl
    (fun _ _ => rfl) (fun _ _ => rfl)
    e (List.mem_filter.mpr ⟨he, by simp [hecid]⟩) hrv
  simp only [send_sensor, sendSensorBody, if_neg hv, hcu, hnu.1, hnu.2, if_false, if_true,
    reduceIte]
  rw [if_pos hprev]
  constructor
  · intro hcond
    apply finishSend_pre_subset
    simp only [_refresh_utility_entities_for_device]
    exact hfold.1 hcond
  · intro hcond
    apply finishSend_pre_subset
    simp only [_refresh_utility_entities_for_device]
    exact hfold.2 hcond

theorem C3_witness :
    Event.discovery ("homeassistant/" ++ "sensor" ++ "/"
        ++ (clean_mac "aabb" ++ "_" ++ "Consumption" ++ cfg0.idSuffix) ++ "/config")
      (utilPayload cfg0
        (alistSet ([] : List (String × Commodity)) (clean_mac "aabb") Commodity.gas)
        (alistSet ([] : List (String × String)) (clean_mac "aabb") "M") (clean_mac "aabb")
        "Consumption" "M")
      ∈ (send_sensor cfg0
          { initState with utilityLastRaw := [(("aabb", "Consumption"), Value.int 5)] }
          0 "aabb" "ert_type" (Value.int 12) "D" "M" true Option.none).2
    ∧ Event.state ("home/rtl_devices/" ++ clean_mac "aabb" ++ "/" ++ "Consumption")
      (_utility_normalize_value cfg0
        (alistSet ([] : List (String × Commodity)) (clean_mac "aabb") Commodity.gas)
        (alistSet ([] : List (String × String)) (clean_mac "aabb") "M") (clean_mac "aabb")
        "Consumption" (Value.int 5) "M")
      ∈ (send_sensor cfg0
          { initState with utilityLastRaw := [(("aabb", "Consumption"), Value.int 5)] }
          0 "aabb" "ert_type" (Value.int 12) "D" "M" true Option.none).2 :=
  ⟨(C3_commodity_retroactive_refresh.2.1 cfg0
      { initState with utilityLastRaw := [(("aabb", "Consumption"), Value.int 5)] }
      0 "aabb" "ert_type" (Value.int 12) "D" "M" true Option.none Commodity.gas
      (by decide) (by decide) (by decide) (by decide) (by decide)
      (("aabb", "Consumption"), Value.int 5) (by decide) (by decide) (by decide)).1
      (by decide),
   (C3_commodity_retroactive_refresh.2.1 cfg0
      { initState with utilityLastRaw := [(("aabb", "Consumption"), Value.int 5)] }
      0 "aabb" "ert_type" (Value.int 12) "D" "M" true Option.none Commodity.gas
      (by decide) (by decide) (by decide) (by decide) (by decide)
      (("aabb", "Consumption"), Value.int 5) (by decide) (by decide) (by decide)).2
      (Or.inl (by decide))⟩
